import Mathlib

/-!
Verification development for the gemini-serpapi-search-engine repository:
a shallow embedding of its concurrent multi-provider collection-and-scoring
pipeline, together with theorems settling the specification claims.

Embedded modules:
  * `app/services/gemini_only_collector.py` (response parsing, text-generation
    metrics, storage structuring),
  * `app/services/concurrent_collector.py` (search-feature metrics, merge step,
    citation/position preparation),
  * `app/services/serpapi_service.py` (feature detection and extraction),
  * `app/utils/logging_system.py` (execution tracker and log-level policy).

Modelling conventions:
  * Python `dict`/JSON values are modelled by the `Json` type; Python `None`
    is `Json.null`.
  * Machine floats are modelled by `ℚ`; `round(x, 2)` is modelled by `round2`
    (rounding of `100·x` to an integer), which agrees with the code on every
    value whose double of `100·x` is not an exact tie.
  * Fallible dynamic operations (attribute access on `None`, iterating a
    non-list, etc.) are modelled in the `Except String` monad; `.error`
    corresponds to a raised Python exception (the string names the exception).
  * Wall-clock timestamps (`datetime.utcnow()`, `time.time()`) are passed
    explicitly as parameters where the code reads the clock.
-/

/-! ### Python string primitives -/

/-- Lower-casing of one ASCII character, as CPython `str.lower` acts on ASCII. -/
def lowerChar (c : Char) : Char :=
  if 65 ≤ c.toNat ∧ c.toNat ≤ 90 then Char.ofNat (c.toNat + 32) else c

/-- Lower-casing of a character list. -/
def lowerList : List Char → List Char
  | [] => []
  | c :: cs => lowerChar c :: lowerList cs

/-- Python `s.lower()` (on the ASCII fragment relevant to the code). -/
def pyLower (s : String) : String := ⟨lowerList s.data⟩

/-- Whether `pat` occurs at the start of `l`. -/
def startsWithL : List Char → List Char → Bool
  | [], _ => true
  | _ :: _, [] => false
  | a :: as, b :: bs => a == b && startsWithL as bs

/-- Whether `needle` occurs somewhere inside `hay` (list form). -/
def infixInL (needle : List Char) : List Char → Bool
  | [] => startsWithL needle []
  | c :: cs => startsWithL needle (c :: cs) || infixInL needle cs

/-- Python `needle in hay` on strings: substring containment. -/
def pyIn (needle hay : String) : Bool := infixInL needle.data hay.data

/-- Helper for `pyRemoveAll`: removes every occurrence of `pat` from the
list, scanning left to right, with explicit fuel (the list length). -/
def removeAllAux (pat : List Char) : Nat → List Char → List Char
  | 0, l => l
  | _, [] => []
  | fuel + 1, c :: cs =>
      if pat ≠ [] ∧ startsWithL pat (c :: cs) then
        removeAllAux pat fuel (List.drop (pat.length - 1) cs)
      else
        c :: removeAllAux pat fuel cs

/-- Python `s.replace(pat, '')`: removes every (non-overlapping, leftmost
first) occurrence of `pat` from `s`. -/
def pyRemoveAll (s pat : String) : String :=
  ⟨removeAllAux pat.data s.data.length s.data⟩

/-- Characters terminating the network-location component of a URL. -/
def netlocEnd (c : Char) : Bool := c == '/' || c == '?' || c == '#'

/-- Take characters until the first `/`, `?` or `#`. -/
def takeNetloc : List Char → List Char
  | [] => []
  | c :: cs => if netlocEnd c then [] else c :: takeNetloc cs

/-- Whether the character may appear in a URL scheme after the first letter. -/
def schemeChar (c : Char) : Bool :=
  c.isAlpha || c.isDigit || c == '+' || c == '-' || c == '.'

/-- Strip a leading `scheme:` prefix (letter followed by scheme characters,
then a colon), as `urllib.parse.urlparse` does. -/
def stripScheme (l : List Char) : List Char :=
  match l with
  | [] => []
  | c :: cs =>
      if c.isAlpha then
        match go cs with
        | some rest => rest
        | none => l
      else l
where
  go : List Char → Option (List Char)
    | [] => none
    | c :: cs => if c == ':' then some cs else if schemeChar c then go cs else none

/-- Python `urllib.parse.urlparse(url).netloc`: the authority component,
present only when (after an optional scheme) the string continues with `//`;
case is preserved. -/
def urlparseNetloc (url : String) : String :=
  let rest := stripScheme url.data
  match rest with
  | '/' :: '/' :: tail => ⟨takeNetloc tail⟩
  | _ => ""

/-! ### JSON values (Python parsed-JSON objects, with `Json.null` for `None`) -/

inductive Json where
  | null : Json
  | bool (b : Bool) : Json
  | num (q : ℚ) : Json
  | str (s : String) : Json
  | arr (elems : List Json) : Json
  | obj (kvs : List (String × Json)) : Json

/-- Structural (Python `==`-style) equality test on JSON values. -/
def beqJson (a b : Json) : Bool :=
  match a, b with
  | .null, .null => true
  | .bool x, .bool y => x == y
  | .num x, .num y => x == y
  | .str x, .str y => x == y
  | .arr xs, .arr ys => beqList xs ys
  | .obj xs, .obj ys => beqKvs xs ys
  | _, _ => false
where
  beqList (xs ys : List Json) : Bool :=
    match xs, ys with
    | [], [] => true
    | x :: xs, y :: ys => beqJson x y && beqList xs ys
    | _, _ => false
  beqKvs (xs ys : List (String × Json)) : Bool :=
    match xs, ys with
    | [], [] => true
    | (k1, v1) :: xs, (k2, v2) :: ys => k1 == k2 && beqJson v1 v2 && beqKvs xs ys
    | _, _ => false

/-- First binding of `key` in an association list (Python dicts cannot hold
duplicate keys, and our parser collapses them, so first match is exact). -/
def lookupKey : List (String × Json) → String → Option Json
  | [], _ => none
  | (k, v) :: rest, key => if k = key then some v else lookupKey rest key

/-- Whether the association list binds `key`. -/
def containsKey (kvs : List (String × Json)) (key : String) : Bool :=
  (lookupKey kvs key).isSome

/-- Python truthiness of a JSON value (`bool(v)`). -/
def pyTruthy : Json → Bool
  | .null => false
  | .bool b => b
  | .num q => q ≠ 0
  | .str s => s ≠ ""
  | .arr xs => !xs.isEmpty
  | .obj kvs => !kvs.isEmpty

/-- Python truthiness of an optional value (`None` is falsy). -/
def pyTruthyOpt : Option Json → Bool
  | none => false
  | some j => pyTruthy j

/-- Python `d.get(key, default)`: raises `AttributeError` when `d` is not a
dict; returns the stored value (even when it is `None`) when the key is
present, else the default. -/
def pyGetD (d : Json) (key : String) (default : Json) : Except String Json :=
  match d with
  | .obj kvs =>
      match lookupKey kvs key with
      | some v => .ok v
      | none => .ok default
  | _ => .error "AttributeError: object has no attribute get"

/-- Python `d.get(key)` (default `None`). -/
def pyGet (d : Json) (key : String) : Except String Json := pyGetD d key Json.null

/-- Python `d[key]` on a dict: `KeyError` when absent, `TypeError` when `d`
is not a dict. -/
def pyIndex (d : Json) (key : String) : Except String Json :=
  match d with
  | .obj kvs =>
      match lookupKey kvs key with
      | some v => .ok v
      | none => .error "KeyError"
  | _ => .error "TypeError: value is not subscriptable by str"

/-- Python `str(...)`-free coercion used where the code calls a `str` method:
raises `AttributeError` when the value is not a string. -/
def pyAsStr : Json → Except String String
  | .str s => .ok s
  | _ => .error "AttributeError: object has no attribute lower"

/-- Python iteration `for x in v`: lists yield elements, strings yield
one-character strings, dicts yield keys; everything else raises `TypeError`. -/
def pyIter : Json → Except String (List Json)
  | .arr xs => .ok xs
  | .str s => .ok (strChars s.data)
  | .obj kvs => .ok (keyStrs kvs)
  | _ => .error "TypeError: object is not iterable"
where
  strChars : List Char → List Json
    | [] => []
    | c :: cs => Json.str ⟨[c]⟩ :: strChars cs
  keyStrs : List (String × Json) → List Json
    | [] => []
    | (k, _) :: rest => Json.str k :: keyStrs rest

/-- Python `len(v)`: defined on lists, strings and dicts, `TypeError`
otherwise. -/
def pyLen : Json → Except String Nat
  | .arr xs => .ok xs.length
  | .str s => .ok s.length
  | .obj kvs => .ok kvs.length
  | _ => .error "TypeError: object has no len"

/-- Python `round(x, 2)` on our ℚ model of floats. -/
def round2 (q : ℚ) : ℚ := (round (q * 100) : ℤ) / 100

example : pyLower "AbC.Com" = "abc.com" := by decide
example : pyIn "" "" = true := by decide
example : pyIn "example.com" "www.example.com" = true := by decide
example : pyRemoveAll "awww.example.com" "www." = "aexample.com" := by decide
example : pyRemoveAll "foo.www.bar.www.com" "www." = "foo.bar.com" := by decide
example : urlparseNetloc "https://www.Example.com/a?q=1" = "www.Example.com" := by decide
example : urlparseNetloc "www.example.com/x" = "" := by decide
example : urlparseNetloc "//host/p" = "host" := by decide
example : round2 (7/3) = 233/100 := by norm_num [round2, round_eq]

/-! ### gemini_only_collector.py — typed model of the parsed Gemini output

`_parse_gemini_response` normalizes provider output toward the fixed schema
(intent, ai_overview, citations[], domain_summary[], top_recommendation).
The metrics claims quantify over parsed provider outputs; we model them with
the typed shape below.  Counts are `ℤ` so that "any magnitude" (including the
adversarial negative values a provider could emit) is representable; the
string-or-dict-or-null unions the code normalizes at runtime are explicit sum
types. -/

structure DomainEntry where
  domain : String
  count : ℤ
  deriving DecidableEq

structure GCitation where
  url : String
  title : String := ""
  source_type : String := "NEUTRAL"
  authority_estimate : ℚ := 50
  sentiment : String := "neutral"
  ai_reusability : String := "Medium"
  deriving DecidableEq

/-- The `ai_overview` field may legally be a plain string, a dict (its `text`
key, defaulted to `""` when missing), or any other value (normalized to `""`). -/
inductive PyOverview where
  | ofStr (s : String)
  | ofDict (text : String)
  | other
  deriving DecidableEq

/-- The `top_recommendation` field may be a string, a dict (its `domain` key,
defaulted to `""`), or `None`. -/
inductive TopRec where
  | ofStr (s : String)
  | ofDict (domain : String)
  | null
  deriving DecidableEq

structure IntentVal where
  itype : String := "informational"
  confidence : ℚ := 1/2
  deriving DecidableEq

structure ParsedGemini where
  intent : Option IntentVal
  ai_overview : PyOverview
  citations : List GCitation
  domain_summary : List DomainEntry
  top_recommendation : TopRec
  deriving DecidableEq

/-- Extraction of `ai_overview_text` (lines 237-241 of the collector). -/
def aiOverviewTextOf : PyOverview → String
  | .ofStr s => s
  | .ofDict t => t
  | .other => ""

/-- Extraction of `top_rec_domain` (lines 252-258): lower-cased string or
dict `domain` key, `''` for `None`. -/
def topRecDomainOf : TopRec → String
  | .ofStr s => pyLower s
  | .ofDict d => pyLower d
  | .null => ""

/-- Domain normalization used for synthesized domain summaries and stored
citations: `urlparse(url).netloc.lower().replace('www.', '')`. -/
def normalizedDomainOfUrl (url : String) : String :=
  pyRemoveAll (pyLower (urlparseNetloc url)) "www."

/-- One step of `domain_counts[domain] = domain_counts.get(domain, 0) + 1`,
preserving dict insertion order. -/
def bumpCount : List DomainEntry → String → List DomainEntry
  | [], d => [⟨d, 1⟩]
  | e :: es, d => if e.domain = d then ⟨e.domain, e.count + 1⟩ :: es else e :: bumpCount es d

/-- Synthesis of a domain summary from the citation list (lines 264-271):
group citations with a URL by normalized domain and count occurrences. -/
def synthesizeDomainSummary (citations : List GCitation) : List DomainEntry :=
  go citations []
where
  go : List GCitation → List DomainEntry → List DomainEntry
    | [], acc => acc
    | c :: cs, acc =>
        if c.url ≠ "" then go cs (bumpCount acc (normalizedDomainOfUrl c.url)) else go cs acc

/-- Case-insensitive substring match of some brand against an
already-lower-cased domain: `any(brand.lower() in domain for brand in brand_domains)`. -/
def brandMatchesDomain (brand_domains : List String) (domainLower : String) : Bool :=
  brand_domains.any (fun b => pyIn (pyLower b) domainLower)

/-- The `domain_summary` actually used by the metrics calculation
(lines 263-271): the parsed one, or, when it is empty and citations exist,
the synthesized one. -/
def effectiveDomainSummary (p : ParsedGemini) : List DomainEntry :=
  if p.domain_summary.isEmpty && !p.citations.isEmpty then
    synthesizeDomainSummary p.citations
  else p.domain_summary

/-- The brand loop of lines 274-282: accumulates `brand_count` and sets
`brand_mentioned` on every entry whose domain matches a brand. -/
def brandLoop (brand_domains : List String) (ds : List DomainEntry) : ℤ × Bool :=
  ds.foldl
    (fun acc e =>
      if brandMatchesDomain brand_domains (pyLower e.domain) then (acc.1 + e.count, true)
      else acc)
    (0, false)

structure GMetrics where
  total_citations : ℕ
  brand_mentioned : Bool
  brand_citations : ℤ
  share_of_voice_percentage : ℚ
  visibility_score : ℚ
  intensity_score : ℚ
  domain_summary : List DomainEntry
  deriving DecidableEq

/-- `GeminiOnlyCollector._calculate_metrics_from_gemini` (lines 231-329):
rule-based, deterministic metrics from a parsed Gemini output plus the brand
domain list. -/
def calculate_metrics_from_gemini (parsed : ParsedGemini) (brand_domains : List String) :
    GMetrics :=
  let ai_overview_text := aiOverviewTextOf parsed.ai_overview
  let citations := parsed.citations
  let top_rec_domain := topRecDomainOf parsed.top_recommendation
  let total_citations := citations.length
  let domain_summary := effectiveDomainSummary parsed
  let bl := brandLoop brand_domains domain_summary
  let brand_count := bl.1
  let brand_mentioned :=
    if !bl.2 && (ai_overview_text != "") then
      brand_domains.any (fun b => pyIn (pyLower b) (pyLower ai_overview_text))
    else bl.2
  let total_domain_counts := (domain_summary.map DomainEntry.count).sum
  let share_of_voice_percentage : ℚ :=
    if 0 < total_domain_counts then (brand_count : ℚ) / (total_domain_counts : ℚ) * 100 else 0
  let v1 : ℚ := if brand_mentioned && (ai_overview_text != "") then 40 else 0
  let v2 : ℚ :=
    if (top_rec_domain != "") && brandMatchesDomain brand_domains top_rec_domain then 30 else 0
  let brand_in_citations :=
    citations.any (fun c => brand_domains.any (fun b => pyIn (pyLower b) (pyLower c.url)))
  let v3 : ℚ := if brand_in_citations then 20 else 0
  let v4 : ℚ := if 0 < brand_count then 10 else 0
  let visibility_score : ℚ := min 100 (v1 + v2 + v3 + v4)
  let intensity_score : ℚ := min 100 ((total_citations : ℚ) * 8)
  { total_citations := total_citations
    brand_mentioned := brand_mentioned
    brand_citations := brand_count
    share_of_voice_percentage := round2 share_of_voice_percentage
    visibility_score := round2 visibility_score
    intensity_score := round2 intensity_score
    domain_summary := domain_summary }

/-- One stored citation row of the gemini-only storage path. -/
structure GCitationRecord where
  domain : String
  url : String
  title : String
  source_type : String
  is_brand : Bool
  authority_score : ℚ
  sentiment : String
  ai_reusability_score : String
  citation_index : ℕ
  deriving DecidableEq

/-- Domain stored for a gemini-only citation (line 404):
`urlparse(url).netloc.lower().replace('www.', '') if url else 'unknown'`. -/
def geminiCitationDomain (url : String) : String :=
  if url ≠ "" then normalizedDomainOfUrl url else "unknown"

/-- The citations loop of `GeminiOnlyCollector._structure_for_storage`
(lines 401-420): builds one row per parsed citation, in order. -/
def gemini_structure_citations (parsed : ParsedGemini) (brand_domains : List String) :
    List GCitationRecord :=
  go 0 parsed.citations
where
  go : ℕ → List GCitation → List GCitationRecord
    | _, [] => []
    | idx, c :: cs =>
        let domain := geminiCitationDomain c.url
        { domain := domain
          url := c.url
          title := c.title
          source_type := c.source_type
          is_brand := brandMatchesDomain brand_domains domain
          authority_score := c.authority_estimate
          sentiment := c.sentiment
          ai_reusability_score := c.ai_reusability
          citation_index := idx } :: go (idx + 1) cs

/-! ### logging_system.py — execution tracker -/

/-- One entry of `ExecutionTracker.execution_data`: status, duration, and the
stored exception (modelled by its message) if any. -/
structure TrackEntry where
  status : String
  time_ms : ℤ
  error : Option String
  deriving DecidableEq

/-- The tracker state `execution_data`, as an insertion-ordered dict from
service name to entry. -/
abbrev ExecData := List (String × TrackEntry)

/-- Python dict assignment `d[name] = entry`: replaces in place when the key
exists, appends otherwise. -/
def insertService : ExecData → String → TrackEntry → ExecData
  | [], name, e => [(name, e)]
  | (k, v) :: rest, name, e =>
      if k = name then (k, e) :: rest else (k, v) :: insertService rest name e

/-- Lookup of a service entry (`summary.get(name)`). -/
def lookupService : ExecData → String → Option TrackEntry
  | [], _ => none
  | (k, v) :: rest, name => if k = name then some v else lookupService rest name

/-- `ExecutionTracker.track_service` (lines 179-236): the wrapper around one
tracked call.  The wrapped call's outcome is `outcome`; `t0`/`t1` are the
`time.time()` readings (in milliseconds) at entry and in the `finally` block.
On success the entry is recorded with status `success`; on an exception the
status is `failed`, the exception is stored, and it is re-raised unchanged
(the returned first component).  The `finally` block runs on both paths, so
the entry is recorded on both. -/
def track_service_run {α : Type} (tracker : ExecData) (service_name : String)
    (t0 t1 : ℤ) (outcome : Except String α) : Except String α × ExecData :=
  let service_status := match outcome with | .ok _ => "success" | .error _ => "failed"
  let error := match outcome with | .ok _ => none | .error e => some e
  (outcome, insertService tracker service_name ⟨service_status, t1 - t0, error⟩)

/-- The `total_time_ms` of `get_execution_summary`: sum of all entry times. -/
def totalTimeMs (tracker : ExecData) : ℤ :=
  (tracker.map (fun kv => kv.2.time_ms)).sum

/-- `ExecutionTracker._determine_log_level` (lines 283-299), applied to the
per-service entries of the execution summary (the code's `isinstance(data,
dict)` filter keeps exactly these). -/
def determine_log_level (summary : ExecData) : String :=
  if summary.any (fun kv => kv.2.status == "failed") then
    if (match lookupService summary "serpapi" with
        | some e => e.status == "failed"
        | none => false) then "CRITICAL"
    else "ERROR"
  else if summary.any (fun kv => kv.2.status == "timeout") then "WARNING"
  else "INFO"

/-- `ExecutionTracker._get_error_service`: first service recorded as failed. -/
def get_error_service (summary : ExecData) : Option String :=
  (summary.find? (fun kv => kv.2.status == "failed")).map Prod.fst

/-- `ExecutionTracker._get_error_message`: message of the first entry holding
an exception. -/
def get_error_message (summary : ExecData) : Option String :=
  (summary.find? (fun kv => kv.2.error.isSome)).map (fun kv => kv.2.error.getD "")

/-- The structured row `get_log_data` builds for the `execution_logs` table
(timestamp and traceback fields elided: wall clock and interpreter state). -/
structure LogData where
  query : String
  serpapi_status : String
  gemini_status : String
  database_status : String
  serpapi_time_ms : ℤ
  gemini_time_ms : ℤ
  database_time_ms : ℤ
  total_time_ms : ℤ
  log_level : String
  error_service : Option String
  error_message : Option String
  deriving DecidableEq

/-- Status of one stage in `get_log_data` (`summary.get(name, {}).get('status',
'not_run')`). -/
def stageStatus (tracker : ExecData) (name : String) : String :=
  match lookupService tracker name with
  | some e => e.status
  | none => "not_run"

/-- Duration of one stage in `get_log_data`. -/
def stageTime (tracker : ExecData) (name : String) : ℤ :=
  match lookupService tracker name with
  | some e => e.time_ms
  | none => 0

/-- `ExecutionTracker.get_log_data` (lines 259-281). -/
def get_log_data (tracker : ExecData) (query : String) : LogData :=
  { query := query
    serpapi_status := stageStatus tracker "serpapi"
    gemini_status := stageStatus tracker "gemini"
    database_status := stageStatus tracker "database"
    serpapi_time_ms := stageTime tracker "serpapi"
    gemini_time_ms := stageTime tracker "gemini"
    database_time_ms := stageTime tracker "database"
    total_time_ms := totalTimeMs tracker
    log_level := determine_log_level tracker
    error_service := get_error_service tracker
    error_message := get_error_message tracker }

/-! ### gemini_only_collector.py — `_parse_gemini_response` (lines 194-229)

The code extracts the first-to-last brace span with
`re.search` on the pattern matching a brace, any characters, and a closing
brace (leftmost-longest: from the first opening brace that has a later
closing brace, to the last closing brace of the whole text), then calls
`json.loads` on it, falling back to a canonical object on any failure. -/

/-- The opening-brace character. -/
def lbraceC : Char := Char.ofNat 123

/-- The closing-brace character. -/
def rbraceC : Char := Char.ofNat 125

/-- Suffix of the list starting at the first opening brace, if any. -/
def suffixFromFirstLB : List Char → Option (List Char)
  | [] => none
  | c :: cs => if c = lbraceC then some (c :: cs) else suffixFromFirstLB cs

/-- Drop characters from the end through the last closing brace: returns the
prefix ending at (and including) the last closing brace, if any. -/
def truncAtLastRB (l : List Char) : Option (List Char) :=
  (go l.reverse).map List.reverse
where
  go : List Char → Option (List Char)
    | [] => none
    | c :: cs => if c = rbraceC then some (c :: cs) else go cs

/-- The regex span extraction of line 196: the greedy match runs from the
first opening brace to the last closing brace after it. -/
def extractJsonSpan (s : String) : Option String :=
  match suffixFromFirstLB s.data with
  | none => none
  | some suf =>
      match truncAtLastRB suf with
      | none => none
      | some span => if span.length ≥ 2 then some ⟨span⟩ else none

/-! A model of CPython `json.loads`, written as a fuel-indexed recursive
descent parser so that every function is structural and kernel-reducible.
(Python's `NaN`/`Infinity` extension is outside the ℚ number model; inputs
using it are not considered.) -/

/-- JSON whitespace. -/
def isJsonWs (c : Char) : Bool := c == ' ' || c == '\t' || c == '\n' || c == '\r'

/-- Skip leading JSON whitespace. -/
def skipWs : List Char → List Char
  | [] => []
  | c :: cs => if isJsonWs c then skipWs cs else c :: cs

/-- Value of a hex digit. -/
def hexVal (c : Char) : Option Nat :=
  if c.isDigit then some (c.toNat - 48)
  else if 97 ≤ c.toNat ∧ c.toNat ≤ 102 then some (c.toNat - 87)
  else if 65 ≤ c.toNat ∧ c.toNat ≤ 70 then some (c.toNat - 55)
  else none

/-- Translate a simple escape character. -/
def escChar (c : Char) : Option Char :=
  if c == '"' ∨ c == '\\' ∨ c == '/' then some c
  else if c == 'n' then some '\n'
  else if c == 't' then some '\t'
  else if c == 'r' then some '\r'
  else if c == 'b' then some (Char.ofNat 8)
  else if c == 'f' then some (Char.ofNat 12)
  else none

/-- Parse the body of a JSON string (after the opening quote), returning the
decoded characters and the remainder after the closing quote. -/
def parseStringBody : Nat → List Char → Option (List Char × List Char)
  | 0, _ => none
  | _, [] => none
  | fuel + 1, c :: cs =>
      if c == '"' then some ([], cs)
      else if c == '\\' then
        match cs with
        | [] => none
        | e :: rest =>
            if e == 'u' then
              match rest with
              | h1 :: h2 :: h3 :: h4 :: rest4 =>
                  match hexVal h1, hexVal h2, hexVal h3, hexVal h4 with
                  | some a, some b, some c3, some d =>
                      (parseStringBody fuel rest4).map
                        (fun p => (Char.ofNat (a * 4096 + b * 256 + c3 * 16 + d) :: p.1, p.2))
                  | _, _, _, _ => none
              | _ => none
            else
              match escChar e with
              | some ec => (parseStringBody fuel rest).map (fun p => (ec :: p.1, p.2))
              | none => none
      else (parseStringBody fuel cs).map (fun p => (c :: p.1, p.2))

/-- Split leading decimal digits. -/
def takeDigits : List Char → List Char × List Char
  | [] => ([], [])
  | c :: cs =>
      if c.isDigit then
        let p := takeDigits cs
        (c :: p.1, p.2)
      else ([], c :: cs)

/-- Numeric value of a digit list. -/
def digitsToNat : List Char → Nat → Nat
  | [], acc => acc
  | c :: cs, acc => digitsToNat cs (acc * 10 + (c.toNat - 48))

/-- Parse a JSON number (integer part without leading zeros, optional
fraction, optional exponent). -/
def parseNumber (l : List Char) : Option (ℚ × List Char) :=
  let (neg, l1) := match l with
    | '-' :: rest => (true, rest)
    | _ => (false, l)
  let (ip, l2) := takeDigits l1
  if ip = [] then none
  else if ip.length > 1 ∧ ip.head? = some '0' then none
  else
    let intVal : ℚ := (digitsToNat ip 0 : ℚ)
    let (mant, l3) : ℚ × List Char :=
      match l2 with
      | '.' :: rest =>
          let (fp, l3) := takeDigits rest
          if fp = [] then (intVal, '.' :: rest)
          else (intVal + (digitsToNat fp 0 : ℚ) / ((10 : ℚ) ^ fp.length), l3)
      | _ => (intVal, l2)
    let withExp : Option (ℚ × List Char) :=
      match l3 with
      | 'e' :: rest => parseExp mant rest
      | 'E' :: rest => parseExp mant rest
      | _ => some (mant, l3)
    withExp.map (fun p => (if neg then -p.1 else p.1, p.2))
where
  parseExp (mant : ℚ) (rest : List Char) : Option (ℚ × List Char) :=
    let (esign, r1) := match rest with
      | '-' :: r => ((-1 : ℤ), r)
      | '+' :: r => ((1 : ℤ), r)
      | _ => ((1 : ℤ), rest)
    let (ep, r2) := takeDigits r1
    if ep = [] then none
    else some (mant * (10 : ℚ) ^ (esign * (digitsToNat ep 0 : ℤ)), r2)

/-- Insert a key into an object under construction: a duplicate key keeps its
original position and takes the latest value, as in a Python dict. -/
def objUpsert : List (String × Json) → String → Json → List (String × Json)
  | [], k, v => [(k, v)]
  | (k0, v0) :: rest, k, v =>
      if k0 = k then (k0, v) :: rest else (k0, v0) :: objUpsert rest k v

/-- Check for an exact keyword (`true`, `false`, `null`) prefix. -/
def matchKeyword (kw : List Char) (l : List Char) : Option (List Char) :=
  match kw, l with
  | [], rest => some rest
  | _ :: _, [] => none
  | k :: ks, c :: cs => if k == c then matchKeyword ks cs else none

/-- Recursive-descent JSON value parser (fuel-indexed). -/
def parseVal : Nat → List Char → Option (Json × List Char)
  | 0, _ => none
  | fuel + 1, l =>
      match skipWs l with
      | [] => none
      | c :: cs =>
          if c = lbraceC then
            match skipWs cs with
            | c1 :: cs1 =>
                if c1 = rbraceC then some (Json.obj [], cs1)
                else (parseObjPairs fuel (c1 :: cs1) []).map (fun p => (Json.obj p.1, p.2))
            | [] => none
          else if c == '[' then
            match skipWs cs with
            | ']' :: cs1 => some (Json.arr [], cs1)
            | rest => (parseArrItems fuel rest []).map (fun p => (Json.arr p.1, p.2))
          else if c == '"' then
            (parseStringBody (cs.length + 1) cs).map (fun p => (Json.str ⟨p.1⟩, p.2))
          else if c == 't' then
            (matchKeyword ['t', 'r', 'u', 'e'] (c :: cs)).map (fun r => (Json.bool true, r))
          else if c == 'f' then
            (matchKeyword ['f', 'a', 'l', 's', 'e'] (c :: cs)).map (fun r => (Json.bool false, r))
          else if c == 'n' then
            (matchKeyword ['n', 'u', 'l', 'l'] (c :: cs)).map (fun r => (Json.null, r))
          else
            (parseNumber (c :: cs)).map (fun p => (Json.num p.1, p.2))

where
  parseObjPairs (fuel : Nat) (l : List Char) (acc : List (String × Json)) :
      Option (List (String × Json) × List Char) :=
    match fuel with
    | 0 => none
    | fuel + 1 =>
        match skipWs l with
        | '"' :: cs =>
            match parseStringBody (cs.length + 1) cs with
            | none => none
            | some (key, r1) =>
                match skipWs r1 with
                | ':' :: r2 =>
                    match parseVal fuel r2 with
                    | none => none
                    | some (v, r3) =>
                        let acc1 := objUpsert acc ⟨key⟩ v
                        match skipWs r3 with
                        | ',' :: r4 => parseObjPairs fuel r4 acc1
                        | c :: r5 => if c = rbraceC then some (acc1, r5) else none
                        | [] => none
                | _ => none
        | _ => none
  parseArrItems (fuel : Nat) (l : List Char) (acc : List Json) :
      Option (List Json × List Char) :=
    match fuel with
    | 0 => none
    | fuel + 1 =>
        match parseVal fuel l with
        | none => none
        | some (v, r1) =>
            match skipWs r1 with
            | ',' :: r2 => parseArrItems fuel r2 (acc ++ [v])
            | ']' :: r3 => some (acc ++ [v], r3)
            | _ => none

/-- Python `json.loads`: parse one value and require only whitespace after it. -/
def jsonLoads (s : String) : Option Json :=
  match parseVal (s.data.length * 2 + 16) s.data with
  | some (v, rest) => if (skipWs rest).isEmpty then some v else none
  | none => none

/-- The intent default used by both fallbacks and `setdefault`. -/
def defaultIntent : Json :=
  Json.obj [("type", Json.str "informational"), ("confidence", Json.num (1/2)),
            ("reasoning", Json.str "fallback")]

/-- The fallback object returned when no JSON span is found (lines 199-207). -/
def fallbackNoJson : Json :=
  Json.obj [("intent", defaultIntent),
            ("ai_overview", Json.obj [("text", Json.str "")]),
            ("citations", Json.arr []),
            ("domain_summary", Json.arr []),
            ("top_recommendation", Json.null),
            ("runner_ups", Json.arr []),
            ("explanation", Json.str "no-json")]

/-- The fallback object returned when `json.loads` fails (lines 212-220). -/
def fallbackParseFailed : Json :=
  Json.obj [("intent", defaultIntent),
            ("ai_overview", Json.obj [("text", Json.str "")]),
            ("citations", Json.arr []),
            ("domain_summary", Json.arr []),
            ("top_recommendation", Json.null),
            ("runner_ups", Json.arr []),
            ("explanation", Json.str "parse-failed")]

/-- Python `data.setdefault(key, default)` on a dict's binding list: keeps an
existing binding, appends the default otherwise. -/
def setdefault (kvs : List (String × Json)) (key : String) (default : Json) :
    List (String × Json) :=
  if containsKey kvs key then kvs else kvs ++ [(key, default)]

/-- The top-level keys the parsed object is guaranteed to carry. -/
def requiredKeys : List String :=
  ["intent", "ai_overview", "citations", "domain_summary", "top_recommendation", "runner_ups"]

/-- The default installed by the `setdefault` of lines 223-228 for each
required key. -/
def setdefaultDefault : String → Json
  | "intent" => Json.obj [("type", Json.str "informational"), ("confidence", Json.num (1/2)),
                          ("reasoning", Json.str "")]
  | "ai_overview" => Json.obj [("text", Json.str "")]
  | "citations" => Json.arr []
  | "domain_summary" => Json.arr []
  | "top_recommendation" => Json.null
  | "runner_ups" => Json.arr []
  | _ => Json.null

/-- The six `setdefault` normalizations of lines 223-228, in order. -/
def applySetdefaults (kvs : List (String × Json)) : List (String × Json) :=
  requiredKeys.foldl (fun acc k => setdefault acc k (setdefaultDefault k)) kvs

/-- Whether a JSON value is a dict binding `key`. -/
def hasKey (d : Json) (key : String) : Bool :=
  match d with
  | .obj kvs => containsKey kvs key
  | _ => false

/-- `GeminiOnlyCollector._parse_gemini_response` (lines 194-229).  The input
is `Option String` because the function is dynamically typed: `None` is a
representable input, on which `re.search` raises `TypeError` before any
fallback can be produced.  A string input never raises: a missing span or a
failed parse produces the corresponding fallback object, and a successful
parse is normalized with the six `setdefault` calls.  (The matched span
always starts with an opening brace, so a successful `json.loads` always
yields a dict; the `AttributeError` arm is unreachable, see
`parse_ok_of_string`.) -/
def parse_gemini_response (raw_text : Option String) : Except String Json :=
  match raw_text with
  | none => .error "TypeError: expected string or bytes-like object"
  | some s =>
      match extractJsonSpan s with
      | none => .ok fallbackNoJson
      | some span =>
          match jsonLoads span with
          | none => .ok fallbackParseFailed
          | some (Json.obj kvs) => .ok (Json.obj (applySetdefaults kvs))
          | some _ => .error "AttributeError: setdefault on non-dict"

/-! ### serpapi_service.py — feature detection and extraction (lines 155-441)

`extract_ai_overview` may issue a second provider fetch via
`_fetch_ai_overview_content`; the fetch and the presence of `self.api_key`
are abstracted as a `FetchEnv` (the network call's parsed JSON result, or the
exception it raised). -/

/-- The provider environment for the AI-overview second fetch. -/
structure FetchEnv where
  apiKey : Bool
  fetch : Json → Except String Json

/-- Python `a or b` (value-level, returning the first truthy operand). -/
def pyOr (a b : Json) : Json := if pyTruthy a then a else b

/-- A Python value shown through `str(...)` inside an f-string.  Only string
payloads matter to the code we verify; other values get a stable placeholder. -/
def pyStrOf : Json → String
  | .str s => s
  | .null => "None"
  | .bool true => "True"
  | .bool false => "False"
  | _ => "<value>"

/-- `None` ↦ `Json.null`. -/
def optJson : Option Json → Json
  | none => Json.null
  | some j => j

/-- The standard knowledge-graph fields excluded from `attributes`. -/
def standardFields : List String :=
  ["title", "type", "description", "source", "image", "profiles",
   "people_also_search_for", "see_results_about"]

/-- The social-profile extraction loop (lines 242-249): keeps dict items only. -/
def kgProfileItems : List Json → List Json
  | [] => []
  | Json.obj kvs :: rest =>
      Json.obj [("name", (lookupKey kvs "name").getD Json.null),
                ("link", (lookupKey kvs "link").getD Json.null)] :: kgProfileItems rest
  | _ :: rest => kgProfileItems rest

/-- The related-search extraction loop (lines 252-260). -/
def kgRelatedItems : List Json → List Json
  | [] => []
  | Json.obj kvs :: rest =>
      Json.obj [("name", (lookupKey kvs "name").getD Json.null),
                ("link", (lookupKey kvs "link").getD Json.null),
                ("image", (lookupKey kvs "image").getD Json.null)] :: kgRelatedItems rest
  | _ :: rest => kgRelatedItems rest

/-- `SerpApiService.extract_knowledge_graph` (lines 200-272). -/
def extract_knowledge_graph (data : Json) : Except String (Option Json) := do
  let kg ← pyGet data "knowledge_graph"
  match kg with
  | Json.obj kgkvs => do
      let sourceRaw ← pyGet kg "source"
      let source ←
        if pyTruthy sourceRaw then do
          let n ← pyGet sourceRaw "name"
          let l ← pyGet sourceRaw "link"
          pure (Json.obj [("name", n), ("link", l)])
        else pure Json.null
      let attributes := kgkvs.filter (fun kv => !(standardFields.contains kv.1))
      let profilesRaw ← pyGet kg "profiles"
      let profiles ←
        if pyTruthy profilesRaw then do
          let items ← pyIter profilesRaw
          pure (kgProfileItems items)
        else pure []
      let relatedRaw ← pyGet kg "people_also_search_for"
      let related ←
        if pyTruthy relatedRaw then do
          let items ← pyIter relatedRaw
          pure (kgRelatedItems items)
        else pure []
      let title ← pyGet kg "title"
      let ktype ← pyGet kg "type"
      let desc ← pyGet kg "description"
      let img ← pyGet kg "image"
      pure (some (Json.obj
        [("exists", Json.bool true), ("title", title), ("type", ktype),
         ("description", desc), ("source", source), ("image", img),
         ("attributes", Json.obj attributes),
         ("profiles", if profiles.isEmpty then Json.null else Json.arr profiles),
         ("people_also_search_for",
          if related.isEmpty then Json.null else Json.arr related)]))
  | _ => pure none

/-- `SerpApiService.extract_answer_box_full` (lines 274-328). -/
def extract_answer_box_full (data : Json) : Except String (Option Json) := do
  let ab ← pyGet data "answer_box"
  match ab with
  | Json.obj _ => do
      let t ← pyGet ab "type"
      let ti ← pyGet ab "title"
      let sn ← pyGet ab "snippet"
      let ans ← pyGet ab "answer"
      let res ← pyGet ab "result"
      let lst ← pyGet ab "list"
      let tbl ← pyGet ab "table"
      let lnk ← pyGet ab "link"
      let src ← pyGet ab "source"
      let dl ← pyGet ab "displayed_link"
      pure (some (Json.obj
        [("exists", Json.bool true), ("kind", Json.str "answer_box"), ("type", t),
         ("title", ti), ("snippet", sn), ("answer", pyOr ans res), ("list", lst),
         ("table", tbl), ("link", pyOr lnk src), ("displayed_link", dl)]))
  | _ => do
      let fs ← pyGet data "featured_snippet"
      match fs with
      | Json.obj _ => do
          let t ← pyGet fs "type"
          let ti ← pyGet fs "title"
          let sn ← pyGet fs "snippet"
          let lst ← pyGet fs "list"
          let tbl ← pyGet fs "table"
          let lnk ← pyGet fs "link"
          let dl ← pyGet fs "displayed_link"
          pure (some (Json.obj
            [("exists", Json.bool true), ("kind", Json.str "featured_snippet"),
             ("type", t), ("title", ti), ("snippet", sn), ("answer", sn),
             ("list", lst), ("table", tbl), ("link", lnk), ("displayed_link", dl)]))
      | _ => pure none

/-- `SerpApiService.extract_organic_results` (lines 104-151): keeps dict
items, resolves the inline sitelinks, and honors the (truthy) limit. -/
def extract_organic_results (data : Json) (limit : Option ℕ) :
    Except String (List Json) := do
  let orRaw ← pyGetD data "organic_results" (Json.arr [])
  match orRaw with
  | Json.arr items => go items []
  | _ => pure []
where
  go : List Json → List Json → Except String (List Json)
    | [], acc => pure acc
    | item :: rest, acc =>
        match item with
        | Json.obj kvs => do
            let sl := (lookupKey kvs "sitelinks").getD Json.null
            let slInline ←
              if pyTruthy sl then do
                let v ← pyGet sl "inline"
                pure v
              else pure Json.null
            let result := Json.obj
              [("position", (lookupKey kvs "position").getD Json.null),
               ("title", (lookupKey kvs "title").getD Json.null),
               ("link", (lookupKey kvs "link").getD Json.null),
               ("displayed_link", (lookupKey kvs "displayed_link").getD Json.null),
               ("snippet", (lookupKey kvs "snippet").getD Json.null),
               ("date", (lookupKey kvs "date").getD Json.null),
               ("sitelinks", slInline),
               ("rich_snippet", (lookupKey kvs "rich_snippet").getD Json.null)]
            let acc1 := acc ++ [result]
            match limit with
            | some (n + 1) => if acc1.length ≥ n + 1 then pure acc1 else go rest acc1
            | _ => go rest acc1
        | _ => go rest acc

/-- Join with newlines (Python `"\n".join`). -/
def joinNL : List String → String
  | [] => ""
  | [s] => s
  | s :: rest => s ++ "\n" ++ joinNL rest

/-- The nested-list loop of `extract_ai_overview` (lines 409-414). -/
def aiNestedParts : List Json → List String
  | [] => []
  | Json.obj kvs :: rest =>
      let ns := (lookupKey kvs "snippet").getD (Json.str "")
      (if pyTruthy ns then ["  - " ++ pyStrOf ns] else []) ++ aiNestedParts rest
  | _ :: rest => aiNestedParts rest

/-- The list-items loop of `extract_ai_overview` (lines 401-414). -/
def aiListItemParts : List Json → Except String (List String)
  | [] => pure []
  | item :: rest =>
      match item with
      | Json.obj kvs => do
          let isn := (lookupKey kvs "snippet").getD (Json.str "")
          let part1 := if pyTruthy isn then ["• " ++ pyStrOf isn] else []
          let nl := (lookupKey kvs "list").getD (Json.arr [])
          let nitems ← pyIter nl
          let tailParts ← aiListItemParts rest
          pure (part1 ++ aiNestedParts nitems ++ tailParts)
      | _ => aiListItemParts rest

/-- The text-block loop of `extract_ai_overview` (lines 387-416): formatted
text parts, plus the dict blocks kept for debugging. -/
def aiTextBlocks : List Json → Except String (List String × List Json)
  | [] => pure ([], [])
  | block :: rest =>
      match block with
      | Json.obj kvs => do
          let sn := (lookupKey kvs "snippet").getD (Json.str "")
          let bt := (lookupKey kvs "type").getD (Json.str "")
          let li := (lookupKey kvs "list").getD (Json.arr [])
          let p1 :=
            if pyTruthy sn then
              if beqJson bt (Json.str "heading") then ["\n" ++ pyStrOf sn ++ "\n"]
              else if beqJson bt (Json.str "paragraph") then [pyStrOf sn]
              else []
            else []
          let p2 ←
            if pyTruthy li then do
              let items ← pyIter li
              aiListItemParts items
            else pure []
          let tail ← aiTextBlocks rest
          pure (p1 ++ p2 ++ tail.1, block :: tail.2)
      | _ => aiTextBlocks rest

/-- The references loop of `extract_ai_overview` (lines 423-432). -/
def aiRefSources : List Json → List Json
  | [] => []
  | Json.obj kvs :: rest =>
      Json.obj [("title", (lookupKey kvs "title").getD Json.null),
                ("link", (lookupKey kvs "link").getD Json.null),
                ("snippet", (lookupKey kvs "snippet").getD Json.null),
                ("source", (lookupKey kvs "source").getD Json.null),
                ("index", (lookupKey kvs "index").getD Json.null)] :: aiRefSources rest
  | _ :: rest => aiRefSources rest

/-- `SerpApiService.extract_ai_overview` (lines 330-441).  The second fetch
runs when the page token and the API key are both truthy; the code's `try`
returns `None` for the whole function on any exception, and also returns
`None` when the provider reports the overview as empty or errored.  An inner
`Option` result of `none` encodes that function-level `return None`. -/
def extract_ai_overview (data : Json) (env : FetchEnv) : Except String (Option Json) := do
  let aio ← pyGet data "ai_overview"
  match aio with
  | Json.obj _ => do
      let page_token ← pyGet aio "page_token"
      let serpapi_link ← pyGet aio "serpapi_link"
      let fetched : Option Json ←
        if pyTruthy page_token && env.apiKey then
          let tryRes : Except String (Option Json) := do
            let fc ← env.fetch page_token
            if pyTruthy fc then do
              let si ← pyGetD fc "search_information" (Json.obj [])
              let ai_state ← pyGetD si "ai_overview_state" (Json.str "")
              let stateStr ← pyAsStr ai_state
              let errv ← pyGet fc "error"
              if pyIn "empty" (pyLower stateStr) || pyTruthy errv then pure none
              else pure (some fc)
            else pure (some fc)
          match tryRes with
          | .error _ => pure none
          | .ok none => pure none
          | .ok (some fc) => pure (some fc)
        else pure (some Json.null)
      match fetched with
      | none => pure none
      | some full_content => do
          let parts ←
            if pyTruthy full_content then do
              let aod ← pyGetD full_content "ai_overview" (Json.obj [])
              let tbr ← pyGetD aod "text_blocks" (Json.arr [])
              let blocks ← pyIter tbr
              let pb ← aiTextBlocks blocks
              let text := if pb.1.isEmpty then Json.null else Json.str (joinNL pb.1)
              let refs ← pyGetD aod "references" (Json.arr [])
              let refItems ← pyIter refs
              pure (text, aiRefSources refItems, pb.2)
            else pure (Json.null, [], [])
          pure (some (Json.obj
            [("exists", Json.bool true), ("text", parts.1),
             ("sources", if parts.2.1.isEmpty then Json.null else Json.arr parts.2.1),
             ("text_blocks",
              if parts.2.2.isEmpty then Json.null else Json.arr parts.2.2),
             ("page_token", page_token), ("serpapi_link", serpapi_link)]))
  | _ => pure none

/-- `SerpApiService.detect_and_extract_features` (lines 155-198): runs the
four extractors and assembles the presence vector
`[knowledge_graph, answer_box, ai_overview, organic_results]` together with
the extracted features. -/
def detect_and_extract_features (data : Json) (env : FetchEnv)
    (limit_organic : Option ℕ := some 10) : Except String Json := do
  let knowledge_graph ← extract_knowledge_graph data
  let answer_box ← extract_answer_box_full data
  let ai_overview ← extract_ai_overview data env
  let organic_results ← extract_organic_results data limit_organic
  let detection := Json.arr
    [Json.num (if pyTruthyOpt knowledge_graph then 1 else 0),
     Json.num (if pyTruthyOpt answer_box then 1 else 0),
     Json.num (if pyTruthyOpt ai_overview then 1 else 0),
     Json.num (if !organic_results.isEmpty then 1 else 0)]
  pure (Json.obj
    [("detection", detection),
     ("knowledge_graph", optJson knowledge_graph),
     ("answer_box", optJson answer_box),
     ("ai_overview", optJson ai_overview),
     ("organic_results", Json.arr organic_results),
     ("organic_results_count", Json.num organic_results.length)])

/-! ### concurrent_collector.py — metrics, citation/position preparation, merge -/

/-- The metrics record `_calculate_all_metrics` returns (lines 432-447). -/
structure MetricsC where
  has_knowledge_graph : Bool
  has_answer_box : Bool
  has_ai_overview : Bool
  has_featured_snippet : Bool
  has_related_questions : Bool
  brand_mentioned : Bool
  ai_overview_text : Json
  total_citations : ℕ
  brand_citations : ℕ
  total_organic_results : ℕ
  brand_organic_positions : ℕ
  visibility_score : ℕ
  intensity_score : ℕ
  share_of_voice_percentage : ℚ

/-- The generator-sum pattern `sum(1 for x in xs if any(brand.lower() in
x.get('link', '').lower() for brand in brands))`: with no brands the inner
`any` is vacuously false without touching the element; otherwise a non-dict
element or non-string link raises. -/
def countBrandLinks (brands : List String) : List Json → Except String ℕ
  | [] => pure 0
  | e :: rest => do
      let hit ←
        if brands.isEmpty then pure false
        else do
          let linkJ ← pyGetD e "link" (Json.str "")
          let s ← pyAsStr linkJ
          pure (brands.any fun b => pyIn (pyLower b) (pyLower s))
      let tailCount ← countBrandLinks brands rest
      pure ((if hit then 1 else 0) + tailCount)

/-- The lazy generator `any(brand.lower() in ai_text.lower() for brand in
brand_domains)` (line 392): with no brands it is false without touching
`ai_text`; otherwise a non-string `ai_text` raises. -/
def pyBrandMentionedText (brands : List String) (ait : Json) : Except String Bool :=
  if brands.isEmpty then pure false
  else do
    let t ← pyAsStr ait
    pure (brands.any fun b => pyIn (pyLower b) (pyLower t))

/-- The stored overview text `ai_text[:1000] if ai_text else None`
(line 439). -/
def pyTruncOverview (ait : Json) : Except String Json :=
  if pyTruthy ait then do
    let t ← pyAsStr ait
    pure (Json.str ⟨t.data.take 1000⟩)
  else pure Json.null

/-- `ConcurrentDataCollector._calculate_all_metrics` (lines 375-447).  The
`features` argument is the dict produced by `detect_and_extract_features`
(which always binds the `ai_overview` key, to `None` when no overview was
detected, so the `features.get('ai_overview', {})` default never applies on
pipeline inputs). -/
def calculate_all_metrics (features : Json) (brand_domains : List String) :
    Except String MetricsC := do
  let kgv ← pyGet features "knowledge_graph"
  let abv ← pyGet features "answer_box"
  let aiv ← pyGet features "ai_overview"
  let fsv ← pyGet features "featured_snippet"
  let rqv ← pyGet features "related_questions"
  let ai_overview ← pyGetD features "ai_overview" (Json.obj [])
  let ai_text ← pyGetD ai_overview "overview" (Json.str "")
  let sources ← pyGetD ai_overview "sources" (Json.arr [])
  let brand_mentioned ← pyBrandMentionedText brand_domains ai_text
  let total_citations ← pyLen sources
  let selems ← pyIter sources
  let brand_citations ← countBrandLinks brand_domains selems
  let organic ← pyGetD features "organic_results" (Json.arr [])
  let total_organic ← pyLen organic
  let oelems ← pyIter organic
  let brand_organic ← countBrandLinks brand_domains oelems
  let visibility_score :=
    min ((if pyTruthy aiv then 40 else 0) + (if pyTruthy abv then 30 else 0) +
         (if pyTruthy kgv then 20 else 0) + (if pyTruthy fsv then 25 else 0) +
         (if pyTruthy rqv then 15 else 0)) 100
  let share_of_voice : ℚ :=
    if 0 < total_organic ∨ 0 < total_citations then
      ((brand_organic : ℚ) + (brand_citations : ℚ)) /
        ((total_organic : ℚ) + (total_citations : ℚ)) * 100
    else 0
  let ai_overview_text ← pyTruncOverview ai_text
  pure
    { has_knowledge_graph := pyTruthy kgv
      has_answer_box := pyTruthy abv
      has_ai_overview := pyTruthy aiv
      has_featured_snippet := pyTruthy fsv
      has_related_questions := pyTruthy rqv
      brand_mentioned := brand_mentioned
      ai_overview_text := ai_overview_text
      total_citations := total_citations
      brand_citations := brand_citations
      total_organic_results := total_organic
      brand_organic_positions := brand_organic
      visibility_score := visibility_score
      intensity_score := visibility_score
      share_of_voice_percentage := round2 share_of_voice }

/-- `ConcurrentDataCollector._categorize_source` (lines 518-527). -/
def categorize_source (domain : String) (is_brand : Bool) : String :=
  if is_brand then "owned"
  else if pyIn ".gov" domain || pyIn ".edu" domain then "authority"
  else if pyIn "wikipedia" domain then "authority"
  else "neutral"

/-- `ConcurrentDataCollector._get_authority_score` (lines 529-550), following
the dict's insertion order and then the TLD defaults. -/
def get_authority_score (domain : String) : ℚ :=
  if pyIn "wikipedia.org" domain then 95
  else if pyIn "gov" domain then 90
  else if pyIn "edu" domain then 85
  else if pyIn "stackoverflow.com" domain then 80
  else if pyIn "github.com" domain then 75
  else if pyIn ".gov" domain || pyIn ".edu" domain then 85
  else if pyIn ".org" domain then 60
  else 50

/-- One row of `citations_data` in the concurrent path (lines 478-489). -/
structure CitRecord where
  domain : String
  url : String
  title : Json
  source_type : String
  is_brand : Bool
  authority_score : ℚ
  sentiment : Json
  ai_reusability_score : Json
  citation_index : ℕ

/-- Python `next((s for s in citation_sentiment if s['url'] == url), {})`:
first matching element, default empty dict; iterating `None` or indexing a
non-dict raises. -/
def findSentiment (citation_sentiment : Json) (urlJ : Json) : Except String Json := do
  let elems ← pyIter citation_sentiment
  find elems
where
  find : List Json → Except String Json
    | [] => pure (Json.obj [])
    | s :: rest => do
        let u ← pyIndex s "url"
        if beqJson u urlJ then pure s else find rest

/-- `ConcurrentDataCollector._prepare_citations_data` (lines 449-491). -/
def prepare_citations_data (features : Json) (brand_domains : List String)
    (citation_sentiment : Json) : Except String (List CitRecord) := do
  let ai_overview ← pyGetD features "ai_overview" (Json.obj [])
  let sourcesJ ← pyGetD ai_overview "sources" (Json.arr [])
  let selems ← pyIter sourcesJ
  go selems 0
where
  go : List Json → ℕ → Except String (List CitRecord)
    | [], _ => pure []
    | source :: rest, idx => do
        let urlJ ← pyGetD source "link" (Json.str "")
        if pyTruthy urlJ then do
          let url ← pyAsStr urlJ
          let domain := pyLower (urlparseNetloc url)
          let is_brand := brand_domains.any fun b => pyIn (pyLower b) domain
          let sentiment_data ← findSentiment citation_sentiment urlJ
          let title ← pyGetD source "title" (Json.str "")
          let sentiment ← pyGetD sentiment_data "sentiment" (Json.str "neutral")
          let reuse ← pyGetD sentiment_data "ai_reusability" (Json.str "Medium")
          let tail ← go rest (idx + 1)
          pure
            ({ domain := domain
               url := url
               title := title
               source_type := categorize_source domain is_brand
               is_brand := is_brand
               authority_score := get_authority_score domain
               sentiment := sentiment
               ai_reusability_score := reuse
               citation_index := idx } :: tail)
        else go rest (idx + 1)

/-- One row of `positions_data` (lines 508-514). -/
structure PosRecord where
  position : ℕ
  domain : String
  url : String
  is_brand : Bool

/-- `ConcurrentDataCollector._prepare_positions_data` (lines 493-516): top 10
organic results, 1-based ranks, URL-less entries skipped. -/
def prepare_positions_data (features : Json) (brand_domains : List String) :
    Except String (List PosRecord) := do
  let organicJ ← pyGetD features "organic_results" (Json.arr [])
  let elems ← pyIter organicJ
  go (elems.take 10) 1
where
  go : List Json → ℕ → Except String (List PosRecord)
    | [], _ => pure []
    | result :: rest, idx => do
        let urlJ ← pyGetD result "link" (Json.str "")
        if pyTruthy urlJ then do
          let url ← pyAsStr urlJ
          let domain := pyLower (urlparseNetloc url)
          let is_brand := brand_domains.any fun b => pyIn (pyLower b) domain
          let tail ← go rest (idx + 1)
          pure ({ position := idx, domain := domain, url := url, is_brand := is_brand } :: tail)
        else go rest (idx + 1)

/-- The keyed result map `_analyze_with_gemini_concurrent` produces
(lines 104-125): each sub-task owns one key; a sub-task that raised is
caught and stored as `None` (`results[task_name] = None`).  Completion order
does not affect the map. -/
def gemini_task_results (intentOutcome sentOutcome : Except String Json) : Json :=
  Json.obj
    [("intent", match intentOutcome with | .ok v => v | .error _ => Json.null),
     ("citation_sentiment", match sentOutcome with | .ok v => v | .error _ => Json.null)]

/-- The `serpapi_data` package `_fetch_serpapi_data` returns (lines 85-88). -/
structure SerpData where
  raw_response : Json
  features : Json

/-- The snapshot row of the concurrent path (lines 317-353); timestamps
elided (wall clock). -/
structure SnapshotC where
  query : String
  country : String
  language : String
  google_domain : String
  intent_type : Json
  intent_confidence : Json
  has_knowledge_graph : Bool
  has_answer_box : Bool
  has_ai_overview : Bool
  has_featured_snippet : Bool
  has_related_questions : Bool
  brand_mentioned : Bool
  ai_overview_text : Json
  total_citations : ℕ
  brand_citations : ℕ
  total_organic_results : ℕ
  brand_organic_positions : ℕ
  visibility_score : ℕ
  intensity_score : ℕ
  share_of_voice_percentage : ℚ
  processing_time_ms : ℕ

/-- The complete package `_structure_for_storage` returns (lines 368-373). -/
structure StructuredData where
  snapshot_data : SnapshotC
  citations_data : List CitRecord
  positions_data : List PosRecord
  log_data : LogData

/-- `ConcurrentDataCollector._structure_for_storage` (lines 291-373): the
merge step.  Reads the keyed sub-task results (`gemini_data`), computes the
metrics, and assembles the snapshot, citation, position and log rows. -/
def structure_for_storage (prompt : String) (serpapi_data : SerpData)
    (gemini_data : Json) (brand_domains : List String) (gl hl : String)
    (tracker : ExecData) : Except String StructuredData := do
  let features := serpapi_data.features
  let intent ← pyGetD gemini_data "intent" (Json.obj [])
  let citation_sentiment ← pyGetD gemini_data "citation_sentiment" (Json.arr [])
  let metrics ← calculate_all_metrics features brand_domains
  let intent_type ← pyGetD intent "intent_type" (Json.str "informational")
  let intent_confidence ← pyGetD intent "confidence" (Json.num (1/2))
  let snapshot : SnapshotC :=
    { query := prompt
      country := gl
      language := hl
      google_domain := "google.com"
      intent_type := intent_type
      intent_confidence := intent_confidence
      has_knowledge_graph := metrics.has_knowledge_graph
      has_answer_box := metrics.has_answer_box
      has_ai_overview := metrics.has_ai_overview
      has_featured_snippet := metrics.has_featured_snippet
      has_related_questions := metrics.has_related_questions
      brand_mentioned := metrics.brand_mentioned
      ai_overview_text := metrics.ai_overview_text
      total_citations := metrics.total_citations
      brand_citations := metrics.brand_citations
      total_organic_results := metrics.total_organic_results
      brand_organic_positions := metrics.brand_organic_positions
      visibility_score := metrics.visibility_score
      intensity_score := metrics.intensity_score
      share_of_voice_percentage := metrics.share_of_voice_percentage
      processing_time_ms := 0 }
  let citations ← prepare_citations_data features brand_domains citation_sentiment
  let positions ← prepare_positions_data features brand_domains
  pure
    { snapshot_data := snapshot
      citations_data := citations
      positions_data := positions
      log_data := get_log_data tracker prompt }

/-! ### Concrete inputs used to settle individual claims -/

/-- Key access on a JSON dict (no exception semantics; `none` when absent or
not a dict). -/
def jsonGet (d : Json) (k : String) : Option Json :=
  match d with
  | .obj kvs => lookupKey kvs k
  | _ => none

/-- The shape the spec requires of a parser fallback object: intent
informational with confidence 0.5, empty overview text, empty
citations/domain-summary/runner-up arrays, null top recommendation. -/
def fallbackShapeOk (d : Json) : Bool :=
  match d with
  | Json.obj kvs =>
      (match lookupKey kvs "intent" with
       | some (Json.obj ik) =>
           beqJson ((lookupKey ik "type").getD Json.null) (Json.str "informational") &&
           beqJson ((lookupKey ik "confidence").getD Json.null) (Json.num (1/2))
       | _ => false) &&
      beqJson ((lookupKey kvs "ai_overview").getD Json.null) (Json.obj [("text", Json.str "")]) &&
      beqJson ((lookupKey kvs "citations").getD Json.null) (Json.arr []) &&
      beqJson ((lookupKey kvs "domain_summary").getD Json.null) (Json.arr []) &&
      beqJson ((lookupKey kvs "top_recommendation").getD (Json.num 0)) Json.null &&
      beqJson ((lookupKey kvs "runner_ups").getD Json.null) (Json.arr [])
  | _ => false

/-- A fetch environment with no API key and an unreachable network. -/
def env0 : FetchEnv := ⟨false, fun _ => .error "network unavailable"⟩

/-- A raw search payload containing only an organic-results array. -/
def payloadOrganicOnly : Json :=
  Json.obj [("organic_results",
             Json.arr [Json.obj [("link", Json.str "https://a.com/x"), ("title", Json.str "A")]])]

/-- A raw search payload with only an answer box (no AI overview): the
feature extractor maps it to a features dict whose `ai_overview` is `None`. -/
def payloadAnswerBox : Json :=
  Json.obj [("answer_box", Json.obj [("answer", Json.str "42")])]

/-- A features dict as `detect_and_extract_features` produces it for a
search with an answer box and no AI overview. -/
def featuresNoOverview : Json :=
  Json.obj
    [("detection", Json.arr [Json.num 0, Json.num 1, Json.num 0, Json.num 0]),
     ("knowledge_graph", Json.null),
     ("answer_box", Json.obj [("exists", Json.bool true), ("kind", Json.str "answer_box")]),
     ("ai_overview", Json.null),
     ("organic_results", Json.arr []),
     ("organic_results_count", Json.num 0)]

/-- A features dict with knowledge graph and answer box present and an
(empty-dict) AI overview: exercises the 30+20 score path without crash. -/
def featuresKgAb : Json :=
  Json.obj
    [("knowledge_graph", Json.obj [("title", Json.str "K")]),
     ("answer_box", Json.obj [("answer", Json.str "42")]),
     ("ai_overview", Json.obj []),
     ("organic_results", Json.arr [])]

/-- A features dict with all five feature keys truthy (score sum 130, capped). -/
def featuresAllFive : Json :=
  Json.obj
    [("knowledge_graph", Json.obj [("title", Json.str "K")]),
     ("answer_box", Json.obj [("answer", Json.str "42")]),
     ("ai_overview", Json.obj [("overview", Json.str "o")]),
     ("featured_snippet", Json.bool true),
     ("related_questions", Json.arr [Json.null]),
     ("organic_results", Json.arr [])]

/-- A healthy features dict with one cited source, as used by the merge-step
analysis: AI overview present with one linked source. -/
def featuresOneSource : Json :=
  Json.obj
    [("detection", Json.arr [Json.num 0, Json.num 0, Json.num 1, Json.num 0]),
     ("knowledge_graph", Json.null),
     ("answer_box", Json.null),
     ("ai_overview",
      Json.obj [("exists", Json.bool true), ("text", Json.str "overview"),
                ("sources",
                 Json.arr [Json.obj [("link", Json.str "https://www.example.com/a"),
                                     ("title", Json.str "T")]])]),
     ("organic_results", Json.arr []),
     ("organic_results_count", Json.num 0)]

/-- Parsed output with a negative domain-summary count (a magnitude the
schema does not forbid). -/
def parsedNegCount : ParsedGemini :=
  { intent := none
    ai_overview := .other
    citations := []
    domain_summary := [⟨"acme.com", -5⟩, ⟨"other.com", 10⟩]
    top_recommendation := .null }

/-- Parsed output whose only domain-summary entry matches the brand with
count 0, with an empty overview. -/
def parsedZeroCount : ParsedGemini :=
  { intent := none
    ai_overview := .ofStr ""
    citations := []
    domain_summary := [⟨"acme.com", 0⟩]
    top_recommendation := .null }

/-- Parsed output with one citation whose URL host carries a `www.` prefix. -/
def parsedWwwCitation : ParsedGemini :=
  { intent := none
    ai_overview := .other
    citations := [{ url := "https://www.example.com/article" }]
    domain_summary := []
    top_recommendation := .null }

/-- The organic-result row the extractor builds from `payloadOrganicOnly`. -/
def organicItemExtracted : Json :=
  Json.obj
    [("position", Json.null), ("title", Json.str "A"),
     ("link", Json.str "https://a.com/x"), ("displayed_link", Json.null),
     ("snippet", Json.null), ("date", Json.null), ("sitelinks", Json.null),
     ("rich_snippet", Json.null)]

/-- The features dict `detect_and_extract_features` produces for
`payloadOrganicOnly`. -/
def featuresOrganicOnly : Json :=
  Json.obj
    [("detection", Json.arr [Json.num 0, Json.num 0, Json.num 0, Json.num 1]),
     ("knowledge_graph", Json.null),
     ("answer_box", Json.null),
     ("ai_overview", Json.null),
     ("organic_results", Json.arr [organicItemExtracted]),
     ("organic_results_count", Json.num 1)]

/-- An empty parsed output (no citations, no summary). -/
def parsedEmpty : ParsedGemini :=
  { intent := none, ai_overview := .other, citations := [], domain_summary := [],
    top_recommendation := .null }

/-- The metrics `_calculate_all_metrics` computes on an empty features dict
with no brands. -/
def metricsEmpty : MetricsC :=
  { has_knowledge_graph := false, has_answer_box := false, has_ai_overview := false
    has_featured_snippet := false, has_related_questions := false, brand_mentioned := false
    ai_overview_text := Json.null, total_citations := 0, brand_citations := 0
    total_organic_results := 0, brand_organic_positions := 0, visibility_score := 0
    intensity_score := 0, share_of_voice_percentage := 0 }

/-- The citation rows the concurrent path builds from `featuresOneSource`
with brand list `["Example.com"]` and an empty sentiment analysis. -/
def recsWww : List CitRecord :=
  [{ domain := "www.example.com"
     url := "https://www.example.com/a"
     title := Json.str "T"
     source_type := "owned"
     is_brand := true
     authority_score := 50
     sentiment := Json.str "neutral"
     ai_reusability_score := Json.str "Medium"
     citation_index := 0 }]

/-! ### Supporting lemmas -/

theorem lookup_insertService (tr : ExecData) (n : String) (e : TrackEntry) :
    lookupService (insertService tr n e) n = some e := by
  induction tr with
  | nil => simp [insertService, lookupService]
  | cons hd tl ih =>
      obtain ⟨k, v⟩ := hd
      by_cases h : k = n <;> simp [insertService, lookupService, h, ih]

theorem lookupService_mem (tr : ExecData) (n : String) (e : TrackEntry)
    (h : lookupService tr n = some e) : (n, e) ∈ tr := by
  induction tr with
  | nil => simp [lookupService] at h
  | cons hd tl ih =>
      obtain ⟨k, v⟩ := hd
      by_cases hk : k = n
      · subst hk
        simp [lookupService] at h
        simp [h]
      · simp [lookupService, hk] at h
        exact List.mem_cons_of_mem _ (ih h)

/-! ### C10 — the track_service decorator records every exit path -/

/-- C10: for every invocation wrapped by `track_service`, an entry for the
service name is recorded on every exit path — status `success` with a
non-negative duration on normal return, status `failed` with the exception on
an exceptional exit — and on the exceptional exit the original exception is
re-raised to the caller unchanged. -/
theorem track_service_records_every_exit {α : Type} (tracker : ExecData)
    (service_name : String) (t0 t1 : ℤ) (outcome : Except String α)
    (h : t0 ≤ t1) :
    (track_service_run tracker service_name t0 t1 outcome).1 = outcome ∧
    ∃ e, lookupService (track_service_run tracker service_name t0 t1 outcome).2
          service_name = some e ∧
      0 ≤ e.time_ms ∧
      ((∃ a, outcome = .ok a) → e.status = "success" ∧ e.error = none) ∧
      (∀ msg, outcome = .error msg →
        e.status = "failed" ∧ e.error = some msg ∧
        (track_service_run tracker service_name t0 t1 outcome).1 = .error msg) := by
  cases outcome with
  | ok a =>
      refine ⟨rfl, ⟨"success", t1 - t0, none⟩, ?_, ?_, ?_, ?_⟩
      · exact lookup_insertService ..
      · show (0:ℤ) ≤ t1 - t0
        omega
      · intro _; exact ⟨rfl, rfl⟩
      · intro msg hmsg; cases hmsg
  | error msg =>
      refine ⟨rfl, ⟨"failed", t1 - t0, some msg⟩, ?_, ?_, ?_, ?_⟩
      · exact lookup_insertService ..
      · show (0:ℤ) ≤ t1 - t0
        omega
      · rintro ⟨a, ha⟩; cases ha
      · intro m hm
        cases hm
        exact ⟨rfl, rfl, rfl⟩

/-- Witness for C10 at a concrete failing call. -/
theorem track_service_records_every_exit_witness :
    (track_service_run [] "serpapi" 0 5 (Except.error (α := ℕ) "boom")).1 =
        Except.error "boom" ∧
    ∃ e, lookupService
          (track_service_run [] "serpapi" 0 5 (Except.error (α := ℕ) "boom")).2
          "serpapi" = some e ∧
      0 ≤ e.time_ms ∧
      ((∃ a, Except.error (α := ℕ) "boom" = Except.ok a) →
        e.status = "success" ∧ e.error = none) ∧
      (∀ msg, Except.error (α := ℕ) "boom" = Except.error msg →
        e.status = "failed" ∧ e.error = some msg ∧
        (track_service_run [] "serpapi" 0 5 (Except.error (α := ℕ) "boom")).1 =
          Except.error msg) :=
  track_service_records_every_exit [] "serpapi" 0 5 (Except.error "boom") (by decide)

/-! ### C6 — log-level policy -/

open Classical in
/-- C6: the execution log's severity is CRITICAL when the serpapi stage
failed, ERROR when some stage failed but serpapi did not, WARNING when some
stage timed out and none failed, and INFO otherwise. -/
theorem log_level_policy (summary : ExecData) :
    determine_log_level summary =
      if ∃ e, lookupService summary "serpapi" = some e ∧ e.status = "failed" then
        "CRITICAL"
      else if ∃ kv ∈ summary, kv.2.status = "failed" then "ERROR"
      else if ∃ kv ∈ summary, kv.2.status = "timeout" then "WARNING"
      else "INFO" := by
  unfold determine_log_level
  by_cases hs : ∃ e, lookupService summary "serpapi" = some e ∧ e.status = "failed"
  · obtain ⟨e, he, hst⟩ := hs
    have hmem : ("serpapi", e) ∈ summary := lookupService_mem _ _ _ he
    have hany : summary.any (fun kv => kv.2.status == "failed") = true := by
      rw [List.any_eq_true]
      exact ⟨("serpapi", e), hmem, by simp [hst]⟩
    simp only [hany, he, hst, if_true]
    simp [he, hst]
  · have hserp : (match lookupService summary "serpapi" with
        | some e => e.status == "failed"
        | none => false) = false := by
      cases hl : lookupService summary "serpapi" with
      | none => rfl
      | some e =>
          by_cases hst : e.status = "failed"
          · exact absurd ⟨e, hl, hst⟩ hs
          · simp [hst]
    by_cases hf : ∃ kv ∈ summary, kv.2.status = "failed"
    · have hany : summary.any (fun kv => kv.2.status == "failed") = true := by
        rw [List.any_eq_true]
        obtain ⟨kv, hm, hst⟩ := hf
        exact ⟨kv, hm, by simp [hst]⟩
      simp only [hany, if_true, hserp]
      simp [hs, hf]
    · have hany : summary.any (fun kv => kv.2.status == "failed") = false := by
        rw [Bool.eq_false_iff, Ne, List.any_eq_true]
        rintro ⟨kv, hm, hst⟩
        exact hf ⟨kv, hm, by simpa using hst⟩
      by_cases ht : ∃ kv ∈ summary, kv.2.status = "timeout"
      · have hanyt : summary.any (fun kv => kv.2.status == "timeout") = true := by
          rw [List.any_eq_true]
          obtain ⟨kv, hm, hst⟩ := ht
          exact ⟨kv, hm, by simp [hst]⟩
        simp [hany, hanyt, hs, hf, ht]
      · have hanyt : summary.any (fun kv => kv.2.status == "timeout") = false := by
          rw [Bool.eq_false_iff, Ne, List.any_eq_true]
          rintro ⟨kv, hm, hst⟩
          exact ht ⟨kv, hm, by simpa using hst⟩
        simp [hany, hanyt, hs, hf, ht]

/-! ### C8 — presence-vector contract -/

theorem bind_ok {α β : Type} (x : Except String α) (f : α → Except String β) (b : β) :
    (x >>= f) = Except.ok b ↔ ∃ a, x = Except.ok a ∧ f a = Except.ok b := by
  cases x <;> simp [Bind.bind, Except.bind]

theorem pure_ok {α : Type} (a b : α) :
    (pure a : Except String α) = Except.ok b ↔ a = b := by
  simp [pure, Except.pure]

/-- C8: feature detection yields a presence vector of exactly 4 zero-or-one
entries in the fixed order [knowledge_graph, answer_box, ai_overview,
organic_results]; and on a payload with only an organic-results array the
vector is [0,0,0,1]. -/
theorem detection_vector_contract :
    (∀ (data : Json) (env : FetchEnv) (f : Json),
        detect_and_extract_features data env = .ok f →
        ∃ kg ab ai org,
          extract_knowledge_graph data = .ok kg ∧
          extract_answer_box_full data = .ok ab ∧
          extract_ai_overview data env = .ok ai ∧
          extract_organic_results data (some 10) = .ok org ∧
          jsonGet f "detection" =
            some (Json.arr
              [Json.num (if pyTruthyOpt kg then 1 else 0),
               Json.num (if pyTruthyOpt ab then 1 else 0),
               Json.num (if pyTruthyOpt ai then 1 else 0),
               Json.num (if !org.isEmpty then 1 else 0)])) ∧
    detect_and_extract_features payloadOrganicOnly env0 = .ok featuresOrganicOnly ∧
    jsonGet featuresOrganicOnly "detection" =
      some (Json.arr [Json.num 0, Json.num 0, Json.num 0, Json.num 1]) := by
  refine ⟨?_, ?_, ?_⟩
  · intro data env f h
    simp only [detect_and_extract_features, bind_ok, pure_ok] at h
    obtain ⟨kg, hkg, ab, hab, ai, hai, org, horg, hf⟩ := h
    subst hf
    exact ⟨kg, ab, ai, org, hkg, hab, hai, horg, rfl⟩
  · rfl
  · rfl

/-- Witness for C8 at the organic-only payload. -/
theorem detection_vector_contract_witness :
    ∃ kg ab ai org,
      extract_knowledge_graph payloadOrganicOnly = .ok kg ∧
      extract_answer_box_full payloadOrganicOnly = .ok ab ∧
      extract_ai_overview payloadOrganicOnly env0 = .ok ai ∧
      extract_organic_results payloadOrganicOnly (some 10) = .ok org ∧
      jsonGet featuresOrganicOnly "detection" =
        some (Json.arr
          [Json.num (if pyTruthyOpt kg then 1 else 0),
           Json.num (if pyTruthyOpt ab then 1 else 0),
           Json.num (if pyTruthyOpt ai then 1 else 0),
           Json.num (if !org.isEmpty then 1 else 0)]) :=
  detection_vector_contract.1 payloadOrganicOnly env0 featuresOrganicOnly rfl

/-! ### C3 — search-feature-path score (code bug: crash when the overview is absent) -/

/-- C3 (code bug evidence): `_calculate_all_metrics` raises `AttributeError`
on every features dict whose `ai_overview` is `None` — which is exactly what
`detect_and_extract_features` produces whenever the search payload has no AI
overview (second conjunct: the crash is reachable from the pipeline on an
answer-box-only payload, where the claimed formula yields 30).  On inputs
whose `ai_overview` is a dict the claimed formula does hold: knowledge graph
and answer box alone give 20+30 = 50, all five features give min(130,100) =
100, and the intensity score equals the visibility score in both cases. -/
theorem search_feature_score_crash_on_absent_overview :
    calculate_all_metrics featuresNoOverview ["acme.com"] =
      .error "AttributeError: object has no attribute get" ∧
    (detect_and_extract_features payloadAnswerBox env0).bind
        (fun f => calculate_all_metrics f ["acme.com"]) =
      .error "AttributeError: object has no attribute get" ∧
    (calculate_all_metrics featuresKgAb ["acme.com"]).map
        (fun m => (m.visibility_score, m.intensity_score)) = .ok (50, 50) ∧
    (calculate_all_metrics featuresAllFive []).map
        (fun m => (m.visibility_score, m.intensity_score)) = .ok (100, 100) :=
  ⟨rfl, rfl, rfl, rfl⟩

/-! ### C5 — merge step versus failed sub-tasks (code bug: merge crashes) -/

/-- C5 (code bug evidence): when a concurrent sub-task fails, the fan-out
stores `None` under that sub-task's key (`results[task_name] = None`), and
the merge step then crashes instead of substituting the named fallback: a
failed intent task hits `intent.get('intent_type', ...)` on `None`
(AttributeError), and a failed citation-sentiment task hits
`next(s for s in None ...)` (TypeError).  The named fallbacks are only
reachable when the sub-task itself succeeds: a succeeding-but-empty intent
task yields informational/0.5, and an empty sentiment analysis yields
neutral/Medium per citation (third conjunct). -/
theorem merge_crashes_on_failed_subtask :
    structure_for_storage "q" ⟨Json.null, featuresOneSource⟩
        (gemini_task_results (.error "intent sub-task failed") (.ok (Json.arr [])))
        [] "us" "en" [] =
      .error "AttributeError: object has no attribute get" ∧
    structure_for_storage "q" ⟨Json.null, featuresOneSource⟩
        (gemini_task_results (.ok (Json.obj [])) (.error "sentiment sub-task failed"))
        [] "us" "en" [] =
      .error "TypeError: object is not iterable" ∧
    (structure_for_storage "q" ⟨Json.null, featuresOneSource⟩
        (gemini_task_results (.ok (Json.obj [])) (.ok (Json.arr []))) [] "us" "en" []).map
        (fun r => (r.snapshot_data.intent_type, r.snapshot_data.intent_confidence,
                   r.citations_data.map
                     (fun (c : CitRecord) => (c.sentiment, c.ai_reusability_score)))) =
      .ok (Json.str "informational", Json.num (1/2),
           [(Json.str "neutral", Json.str "Medium")]) :=
  ⟨rfl, rfl, rfl⟩

/-! ### Brand-loop characterization -/

theorem brandLoop_general (brands : List String) (ds : List DomainEntry) (c : ℤ) (b : Bool) :
    ds.foldl
      (fun acc e =>
        if brandMatchesDomain brands (pyLower e.domain) then (acc.1 + e.count, true)
        else acc) (c, b) =
    (c + ((ds.filter fun e => brandMatchesDomain brands (pyLower e.domain)).map
            DomainEntry.count).sum,
     b || ds.any fun e => brandMatchesDomain brands (pyLower e.domain)) := by
  induction ds generalizing c b with
  | nil => simp
  | cons e tl ih =>
      by_cases h : brandMatchesDomain brands (pyLower e.domain) = true
      · simp [List.foldl_cons, h, ih, List.filter_cons, List.any_cons, add_assoc]
      · simp [List.foldl_cons, h, ih, List.filter_cons, List.any_cons]

theorem brandLoop_eq (brands : List String) (ds : List DomainEntry) :
    brandLoop brands ds =
      (((ds.filter fun e => brandMatchesDomain brands (pyLower e.domain)).map
          DomainEntry.count).sum,
       ds.any fun e => brandMatchesDomain brands (pyLower e.domain)) := by
  unfold brandLoop
  rw [brandLoop_general]
  simp

/-! ### C7 — brand-mention detection (corrected) -/

theorem brand_mentioned_expr (p : ParsedGemini) (brands : List String) :
    (calculate_metrics_from_gemini p brands).brand_mentioned =
      (if !((effectiveDomainSummary p).any fun e => brandMatchesDomain brands (pyLower e.domain))
          && (aiOverviewTextOf p.ai_overview != "") then
         brands.any fun b => pyIn (pyLower b) (pyLower (aiOverviewTextOf p.ai_overview))
       else (effectiveDomainSummary p).any fun e => brandMatchesDomain brands (pyLower e.domain)) := by
  simp only [calculate_metrics_from_gemini, brandLoop_eq]

/-- C7 (counterexample): with the single domain-summary entry `acme.com`
having count 0 and an empty overview, the code sets `brand_mentioned = True`,
while the claim ("matches a brand AND that entry's count is greater than 0")
predicts `False`. -/
theorem brand_mentioned_count_zero_counterexample :
    (calculate_metrics_from_gemini parsedZeroCount ["acme.com"]).brand_mentioned = true ∧
    ¬ ∃ e ∈ parsedZeroCount.domain_summary,
        brandMatchesDomain ["acme.com"] (pyLower e.domain) = true ∧ 0 < e.count := by
  constructor
  · decide
  · decide

/-- C7 (amended): `brand_mentioned` is true exactly when some entry of the
effective domain summary (the parsed one, or the one synthesized from
citations when the parsed one is empty) matches a brand — regardless of its
count — or, when no entry matches, when the AI-overview text is non-empty
and contains some brand case-insensitively. -/
theorem brand_mentioned_rule (p : ParsedGemini) (brands : List String) :
    (calculate_metrics_from_gemini p brands).brand_mentioned = true ↔
      ((∃ e ∈ effectiveDomainSummary p, brandMatchesDomain brands (pyLower e.domain) = true) ∨
       ((∀ e ∈ effectiveDomainSummary p, brandMatchesDomain brands (pyLower e.domain) = false) ∧
        aiOverviewTextOf p.ai_overview ≠ "" ∧
        ∃ b ∈ brands, pyIn (pyLower b) (pyLower (aiOverviewTextOf p.ai_overview)) = true)) := by
  rw [brand_mentioned_expr]
  by_cases hA : ((effectiveDomainSummary p).any fun e => brandMatchesDomain brands (pyLower e.domain)) = true
  · rw [hA]
    simp only [Bool.not_true, Bool.false_and, Bool.false_eq_true, if_false]
    exact iff_of_true trivial (Or.inl (List.any_eq_true.mp hA))
  · have hA' : ((effectiveDomainSummary p).any fun e => brandMatchesDomain brands (pyLower e.domain)) = false :=
      Bool.not_eq_true _ ▸ (by simpa using hA)
    rw [hA']
    simp only [Bool.not_false, Bool.true_and]
    have hall : ∀ e ∈ effectiveDomainSummary p, brandMatchesDomain brands (pyLower e.domain) = false := by
      intro e he
      cases hb : brandMatchesDomain brands (pyLower e.domain)
      · rfl
      · exact absurd (List.any_eq_true.mpr ⟨e, he, hb⟩) hA
    have hnoex : ¬ ∃ e ∈ effectiveDomainSummary p, brandMatchesDomain brands (pyLower e.domain) = true := by
      rintro ⟨e, he, hm⟩
      rw [hall e he] at hm
      cases hm
    by_cases ht : aiOverviewTextOf p.ai_overview = ""
    · rw [ht]
      refine iff_of_false (by simp) ?_
      rintro (hex | ⟨_, hne, _⟩)
      · exact hnoex hex
      · exact hne rfl
    · have htb : (aiOverviewTextOf p.ai_overview != "") = true := by
        simpa [bne_iff_ne] using ht
      rw [htb]
      simp only [if_true, List.any_eq_true]
      constructor
      · intro hex
        exact Or.inr ⟨hall, ht, hex⟩
      · rintro (hex | ⟨_, _, hex⟩)
        · exact absurd hex hnoex
        · exact hex

/-! ### C1 — text-generation-path visibility score -/

theorem round2_vis (P1 P2 P3 P4 : Prop) [Decidable P1] [Decidable P2] [Decidable P3] [Decidable P4] :
    round2 (min 100 ((if P1 then (40 : ℚ) else 0) + (if P2 then 30 else 0) +
                     (if P3 then 20 else 0) + (if P4 then 10 else 0))) =
      min 100 ((if P1 then (40 : ℚ) else 0) + (if P2 then 30 else 0) +
               (if P3 then 20 else 0) + (if P4 then 10 else 0)) := by
  split_ifs <;> norm_num [round2, round_eq, min_def]

/-- C1: the text-generation-path visibility score is the sum of exactly the
four components — +40 when the brand is mentioned and an AI-overview text
exists, +30 when there is a top-recommended domain and it substring-matches a
brand, +20 when some citation URL substring-matches a brand, +10 when the
brand citation count is positive — capped at 100 (the code's final
`round(·, 2)` is the identity on these integer-valued scores). -/
theorem visibility_formula (p : ParsedGemini) (brands : List String) :
    (calculate_metrics_from_gemini p brands).visibility_score =
      min 100
        ((if (calculate_metrics_from_gemini p brands).brand_mentioned = true ∧
              aiOverviewTextOf p.ai_overview ≠ "" then (40 : ℚ) else 0) +
         (if topRecDomainOf p.top_recommendation ≠ "" ∧
              ∃ b ∈ brands, pyIn (pyLower b) (topRecDomainOf p.top_recommendation) = true
          then 30 else 0) +
         (if ∃ c ∈ p.citations, ∃ b ∈ brands, pyIn (pyLower b) (pyLower c.url) = true
          then 20 else 0) +
         (if 0 < (calculate_metrics_from_gemini p brands).brand_citations then 10 else 0)) := by
  simp only [calculate_metrics_from_gemini, brandLoop_eq, brandMatchesDomain]
  rw [round2_vis]
  simp only [Bool.and_eq_true, bne_iff_ne, List.any_eq_true]

/-! ### C4 — score ranges (corrected: a negative domain-summary count drives
the text-generation-path share of voice below 0) -/

theorem sum_filter_nonneg (ds : List DomainEntry) (pred : DomainEntry → Bool)
    (h : ∀ e ∈ ds, 0 ≤ e.count) :
    0 ≤ ((ds.filter pred).map DomainEntry.count).sum := by
  induction ds with
  | nil => simp
  | cons e tl ih =>
      have he := h e (List.mem_cons_self _ _)
      have htl := ih (fun x hx => h x (List.mem_cons_of_mem _ hx))
      by_cases hp : pred e = true <;> simp [List.filter_cons, hp] <;> omega

theorem sum_filter_le_sum (ds : List DomainEntry) (pred : DomainEntry → Bool)
    (h : ∀ e ∈ ds, 0 ≤ e.count) :
    ((ds.filter pred).map DomainEntry.count).sum ≤ (ds.map DomainEntry.count).sum := by
  induction ds with
  | nil => simp
  | cons e tl ih =>
      have he := h e (List.mem_cons_self _ _)
      have htl := ih (fun x hx => h x (List.mem_cons_of_mem _ hx))
      by_cases hp : pred e = true <;> simp [List.filter_cons, hp] <;> omega

theorem bumpCount_nonneg (l : List DomainEntry) (d : String)
    (h : ∀ e ∈ l, 0 ≤ e.count) : ∀ e ∈ bumpCount l d, 0 ≤ e.count := by
  induction l with
  | nil =>
      intro e he
      simp [bumpCount] at he
      simp [he]
  | cons hd tl ih =>
      intro e he
      have hhd := h hd (List.mem_cons_self _ _)
      have htl := fun x hx => h x (List.mem_cons_of_mem _ hx)
      by_cases hd0 : hd.domain = d
      · simp [bumpCount, hd0] at he
        rcases he with he | he
        · subst he; simp; omega
        · exact htl e he
      · simp [bumpCount, hd0] at he
        rcases he with he | he
        · subst he; exact hhd
        · exact ih htl e he

theorem synth_go_nonneg (cits : List GCitation) (acc : List DomainEntry)
    (h : ∀ e ∈ acc, 0 ≤ e.count) :
    ∀ e ∈ synthesizeDomainSummary.go cits acc, 0 ≤ e.count := by
  induction cits generalizing acc with
  | nil => simpa [synthesizeDomainSummary.go] using h
  | cons c tl ih =>
      by_cases hc : c.url = ""
      · simpa [synthesizeDomainSummary.go, hc] using ih acc h
      · simpa [synthesizeDomainSummary.go, hc] using
          ih (bumpCount acc (normalizedDomainOfUrl c.url)) (bumpCount_nonneg _ _ h)

theorem effectiveDomainSummary_nonneg (p : ParsedGemini)
    (h : ∀ e ∈ p.domain_summary, 0 ≤ e.count) :
    ∀ e ∈ effectiveDomainSummary p, 0 ≤ e.count := by
  unfold effectiveDomainSummary
  split
  · exact synth_go_nonneg _ [] (by simp)
  · exact h

theorem round2_nonneg (q : ℚ) (h : 0 ≤ q) : 0 ≤ round2 q := by
  unfold round2
  have h1 : (0 : ℤ) ≤ round (q * 100) := by
    rw [round_eq]
    rw [Int.le_floor]
    push_cast
    linarith
  positivity

theorem round2_le_100 (q : ℚ) (h : q ≤ 100) : round2 q ≤ 100 := by
  unfold round2
  have h1 : round (q * 100) ≤ 10000 := by
    rw [round_eq]
    have hq : (⌊q * 100 + 1 / 2⌋ : ℚ) ≤ 10000 + 1 / 2 :=
      le_trans (Int.floor_le _) (by linarith)
    have h2q : (⌊q * 100 + 1 / 2⌋ : ℚ) < 10001 := by linarith
    have h2 : ⌊q * 100 + 1 / 2⌋ < (10001 : ℤ) := by exact_mod_cast h2q
    omega
  rw [div_le_iff₀ (by norm_num : (0:ℚ) < 100)]
  calc ((round (q * 100) : ℤ) : ℚ) ≤ 10000 := by exact_mod_cast h1
    _ = 100 * 100 := by norm_num

theorem countBrandLinks_le (brands : List String) :
    ∀ (l : List Json) (n : ℕ), countBrandLinks brands l = .ok n → n ≤ l.length := by
  intro l
  induction l with
  | nil =>
      intro n h
      simp [countBrandLinks, pure, Except.pure] at h
      omega
  | cons e tl ih =>
      intro n h
      cases hbr : brands.isEmpty with
      | true =>
          simp only [countBrandLinks, hbr, if_true, bind_ok, pure_ok] at h
          obtain ⟨hit, hh, tc, htc, hn⟩ := h
          have := ih tc htc
          cases hh
          subst hn
          simp
          omega
      | false =>
          simp only [countBrandLinks, hbr, Bool.false_eq_true, if_false, bind_ok, pure_ok] at h
          obtain ⟨linkJ, _, s, _, hit, hh, tc, htc, hn⟩ := h
          have := ih tc htc
          subst hn
          cases hit <;> simp <;> omega

theorem strChars_length (cs : List Char) : (pyIter.strChars cs).length = cs.length := by
  induction cs with
  | nil => rfl
  | cons c tl ih => simp [pyIter.strChars, ih]

theorem keyStrs_length (kvs : List (String × Json)) : (pyIter.keyStrs kvs).length = kvs.length := by
  induction kvs with
  | nil => rfl
  | cons kv tl ih =>
      obtain ⟨k, v⟩ := kv
      simp [pyIter.keyStrs, ih]

theorem pyLen_iter (j : Json) (n : ℕ) (l : List Json)
    (h1 : pyLen j = .ok n) (h2 : pyIter j = .ok l) : l.length = n := by
  cases j with
  | arr xs =>
      simp [pyLen, pyIter] at h1 h2
      subst h1; subst h2; rfl
  | str s =>
      simp [pyLen, pyIter] at h1 h2
      subst h1; subst h2
      exact strChars_length _
  | obj kvs =>
      simp [pyLen, pyIter] at h1 h2
      subst h1; subst h2
      exact keyStrs_length _
  | null => simp [pyLen] at h1
  | bool b => simp [pyLen] at h1
  | num q => simp [pyLen] at h1

/-- C4 (counterexample): with domain summary
`[{acme.com, count -5}, {other.com, count 10}]` and brand `acme.com`, the
text-generation-path share of voice is `-5/5·100 = -100 < 0`: the claimed
`[0,100]` range fails for inputs of negative magnitude. -/
theorem share_of_voice_negative_counterexample :
    (calculate_metrics_from_gemini parsedNegCount ["acme.com"]).share_of_voice_percentage < 0 := by
  have h1 : effectiveDomainSummary parsedNegCount =
      [⟨"acme.com", -5⟩, ⟨"other.com", 10⟩] := by decide
  have h2 : brandLoop ["acme.com"] [⟨"acme.com", -5⟩, ⟨"other.com", 10⟩] = (-5, true) := by decide
  have h3 : (([⟨"acme.com", -5⟩, ⟨"other.com", 10⟩] : List DomainEntry).map DomainEntry.count).sum
      = 5 := by decide
  simp only [calculate_metrics_from_gemini, h1, h2, h3]
  norm_num [round2, round_eq]

/-- C4 (amended): all three computed scores lie in `[0, 100]` in both paths,
provided every domain-summary count is non-negative (text-generation path;
counts synthesized from citations are always positive) and, in the
search-feature path, whenever the metrics computation returns at all. -/
theorem scores_within_range :
    (∀ (p : ParsedGemini) (brands : List String),
        (∀ e ∈ p.domain_summary, 0 ≤ e.count) →
        (0 ≤ (calculate_metrics_from_gemini p brands).visibility_score ∧
         (calculate_metrics_from_gemini p brands).visibility_score ≤ 100 ∧
         0 ≤ (calculate_metrics_from_gemini p brands).intensity_score ∧
         (calculate_metrics_from_gemini p brands).intensity_score ≤ 100 ∧
         0 ≤ (calculate_metrics_from_gemini p brands).share_of_voice_percentage ∧
         (calculate_metrics_from_gemini p brands).share_of_voice_percentage ≤ 100)) ∧
    (∀ (features : Json) (brands : List String) (m : MetricsC),
        calculate_all_metrics features brands = .ok m →
        (m.visibility_score ≤ 100 ∧ m.intensity_score ≤ 100 ∧
         0 ≤ m.share_of_voice_percentage ∧ m.share_of_voice_percentage ≤ 100)) := by
  constructor
  · intro p brands hc
    simp only [calculate_metrics_from_gemini, brandLoop_eq]
    have hnn : ∀ e ∈ effectiveDomainSummary p, 0 ≤ e.count :=
      effectiveDomainSummary_nonneg p hc
    have hbc0 : 0 ≤ (((effectiveDomainSummary p).filter fun e =>
        brandMatchesDomain brands (pyLower e.domain)).map DomainEntry.count).sum :=
      sum_filter_nonneg _ _ hnn
    have hbct : (((effectiveDomainSummary p).filter fun e =>
        brandMatchesDomain brands (pyLower e.domain)).map DomainEntry.count).sum ≤
        ((effectiveDomainSummary p).map DomainEntry.count).sum :=
      sum_filter_le_sum _ _ hnn
    refine ⟨?_, ?_, ?_, ?_, ?_, ?_⟩
    · apply round2_nonneg
      apply le_min (by norm_num)
      split_ifs <;> norm_num
    · exact round2_le_100 _ (min_le_left _ _)
    · apply round2_nonneg
      apply le_min (by norm_num)
      positivity
    · exact round2_le_100 _ (min_le_left _ _)
    · apply round2_nonneg
      split_ifs with h
      · apply mul_nonneg _ (by norm_num)
        apply div_nonneg
        · exact_mod_cast hbc0
        · exact_mod_cast le_of_lt h
      · exact le_refl 0
    · apply round2_le_100
      split_ifs with h
      · have ht : (0:ℚ) < (((effectiveDomainSummary p).map DomainEntry.count).sum : ℚ) := by
          exact_mod_cast h
        have hdle : ((((effectiveDomainSummary p).filter fun e =>
            brandMatchesDomain brands (pyLower e.domain)).map DomainEntry.count).sum : ℚ) /
            (((effectiveDomainSummary p).map DomainEntry.count).sum : ℚ) ≤ 1 := by
          rw [div_le_one ht]
          exact_mod_cast hbct
        linarith
      · norm_num
  · intro features brands m h
    simp only [calculate_all_metrics, bind_ok, pure_ok] at h
    obtain ⟨kgv, hkgv, abv, habv, aiv, haiv, fsv, hfsv, rqv, hrqv, aio, haio, ait, hait,
      srcs, hsrcs, bm, hbm, tc, htc, sel, hsel, bc, hbc, org, horg, tor, htor, oel, hoel,
      bo, hbo, aot, haot, hm⟩ := h
    have hbc' : bc ≤ tc := le_trans (countBrandLinks_le brands sel bc hbc)
      (le_of_eq (pyLen_iter srcs tc sel htc hsel))
    have hbo' : bo ≤ tor := le_trans (countBrandLinks_le brands oel bo hbo)
      (le_of_eq (pyLen_iter org tor oel htor hoel))
    subst hm
    refine ⟨min_le_right _ _, min_le_right _ _, ?_, ?_⟩
    · apply round2_nonneg
      split_ifs with h
      · positivity
      · exact le_refl 0
    · apply round2_le_100
      split_ifs with h
      · have hden : (0:ℚ) < (tor : ℚ) + (tc : ℚ) := by
          rcases h with h | h
          · have h1 : (0:ℚ) < (tor:ℚ) := by exact_mod_cast h
            positivity
          · have h1 : (0:ℚ) < (tc:ℚ) := by exact_mod_cast h
            positivity
        have hnum : (bo : ℚ) + (bc : ℚ) ≤ (tor : ℚ) + (tc : ℚ) := by
          exact_mod_cast Nat.add_le_add hbo' hbc'
        have hq : ((bo : ℚ) + (bc : ℚ)) / ((tor : ℚ) + (tc : ℚ)) ≤ 1 := by
          rw [div_le_one hden]
          exact hnum
        linarith
      · norm_num

/-- Witness for C4 at concrete inputs for both paths. -/
theorem scores_within_range_witness :
    (0 ≤ (calculate_metrics_from_gemini parsedEmpty []).visibility_score ∧
     (calculate_metrics_from_gemini parsedEmpty []).visibility_score ≤ 100 ∧
     0 ≤ (calculate_metrics_from_gemini parsedEmpty []).intensity_score ∧
     (calculate_metrics_from_gemini parsedEmpty []).intensity_score ≤ 100 ∧
     0 ≤ (calculate_metrics_from_gemini parsedEmpty []).share_of_voice_percentage ∧
     (calculate_metrics_from_gemini parsedEmpty []).share_of_voice_percentage ≤ 100) ∧
    (metricsEmpty.visibility_score ≤ 100 ∧ metricsEmpty.intensity_score ≤ 100 ∧
     0 ≤ metricsEmpty.share_of_voice_percentage ∧
     metricsEmpty.share_of_voice_percentage ≤ 100) := by
  constructor
  · exact scores_within_range.1 parsedEmpty [] (by simp [parsedEmpty])
  · refine scores_within_range.2 (Json.obj []) [] metricsEmpty ?_
    simp only [calculate_all_metrics, pyGet, pyGetD, pyLen, pyIter, pyBrandMentionedText,
      pyTruncOverview, countBrandLinks, lookupKey, pyTruthy, metricsEmpty,
      bind, Except.bind, pure, Except.pure, List.isEmpty, if_true]
    norm_num [round2, round_eq]

/-! ### C9 — citation domain normalization (corrected: the concurrent path
stores the host without stripping `www.`) -/

theorem prepare_citations_go_domains (brands : List String) (cs : Json) :
    ∀ (l : List Json) (idx : ℕ) (recs : List CitRecord),
      prepare_citations_data.go brands cs l idx = .ok recs →
      ∀ r ∈ recs, r.domain = pyLower (urlparseNetloc r.url) ∧
        (r.is_brand = true ↔ ∃ b ∈ brands, pyIn (pyLower b) r.domain = true) := by
  intro l
  induction l with
  | nil =>
      intro idx recs h r hr
      simp [prepare_citations_data.go, pure, Except.pure] at h
      subst h
      simp at hr
  | cons source rest ih =>
      intro idx recs h r hr
      simp only [prepare_citations_data.go, bind_ok] at h
      obtain ⟨urlJ, hurl, h⟩ := h
      split at h
      · simp only [bind_ok, pure_ok] at h
        obtain ⟨url, hu, sd, hsd, title, hti, sent, hse, reuse, hre, tail, htail, hrec⟩ := h
        subst hrec
        rcases List.mem_cons.mp hr with hr' | hr'
        · subst hr'
          refine ⟨rfl, ?_⟩
          simp only [List.any_eq_true]
        · exact ih _ _ htail r hr'
      · exact ih _ _ h r hr

theorem gemini_citations_domains (brands : List String) :
    ∀ (l : List GCitation) (idx : ℕ) (r : GCitationRecord),
      r ∈ gemini_structure_citations.go brands idx l →
      r.domain = geminiCitationDomain r.url ∧
      (r.is_brand = true ↔ ∃ b ∈ brands, pyIn (pyLower b) r.domain = true) := by
  intro l
  induction l with
  | nil =>
      intro idx r hr
      simp [gemini_structure_citations.go] at hr
  | cons c rest ih =>
      intro idx r hr
      simp only [gemini_structure_citations.go] at hr
      rcases List.mem_cons.mp hr with hr' | hr'
      · subst hr'
        refine ⟨rfl, ?_⟩
        simp only [brandMatchesDomain, List.any_eq_true]
      · exact ih _ r hr'

/-- C9 (counterexample): the concurrent collection path stores the citation
domain as the lower-cased host with the `www.` prefix kept
(`www.example.com`), not the `www.`-stripped normalization the claim states
(`example.com`). -/
theorem citation_domain_keeps_www_counterexample :
    (prepare_citations_data featuresOneSource ["Example.com"] (Json.arr [])).map
        (fun rs => rs.map fun (r : CitRecord) => r.domain) = .ok ["www.example.com"] ∧
    pyRemoveAll (pyLower (urlparseNetloc "https://www.example.com/a")) "www." =
      "example.com" ∧
    "www.example.com" ≠ "example.com" := by
  refine ⟨rfl, by decide, by decide⟩

/-- C9 (amended): the gemini-only path stores the lower-cased host with
every `www.` occurrence removed (`unknown` for empty URLs); the concurrent
path stores the lower-cased host unchanged.  In both paths `is_brand` is
case-insensitive substring matching of a brand against the stored domain, so
brand `Example.com` against host `www.example.com` yields `is_brand = true`
in both paths (with stored domains `www.example.com` and `example.com`
respectively). -/
theorem citation_domain_normalization :
    (∀ (features cs : Json) (brands : List String) (recs : List CitRecord),
        prepare_citations_data features brands cs = .ok recs →
        ∀ r ∈ recs, r.domain = pyLower (urlparseNetloc r.url) ∧
          (r.is_brand = true ↔ ∃ b ∈ brands, pyIn (pyLower b) r.domain = true)) ∧
    (∀ (p : ParsedGemini) (brands : List String),
        ∀ r ∈ gemini_structure_citations p brands,
          r.domain = geminiCitationDomain r.url ∧
          (r.is_brand = true ↔ ∃ b ∈ brands, pyIn (pyLower b) r.domain = true)) ∧
    (prepare_citations_data featuresOneSource ["Example.com"] (Json.arr [])).map
        (fun rs => rs.map fun (r : CitRecord) => (r.domain, r.is_brand)) =
      .ok [("www.example.com", true)] ∧
    (gemini_structure_citations parsedWwwCitation ["Example.com"]).map
        (fun r => (r.domain, r.is_brand)) = [("example.com", true)] := by
  refine ⟨?_, ?_, rfl, ?_⟩
  · intro features cs brands recs h
    simp only [prepare_citations_data, bind_ok] at h
    obtain ⟨aio, haio, srcJ, hsrc, selems, hsel, hgo⟩ := h
    exact prepare_citations_go_domains brands cs selems 0 recs hgo
  · intro p brands r hr
    exact gemini_citations_domains brands p.citations 0 r hr
  · decide

/-- Witness for C9 at the concrete concurrent-path input. -/
theorem citation_domain_normalization_witness :
    ∀ r ∈ recsWww, r.domain = pyLower (urlparseNetloc r.url) ∧
      (r.is_brand = true ↔ ∃ b ∈ ["Example.com"], pyIn (pyLower b) r.domain = true) :=
  citation_domain_normalization.1 featuresOneSource (Json.arr []) ["Example.com"] recsWww rfl

/-! ### C2 — parser fallback law -/

theorem suffixFromFirstLB_head :
    ∀ (l suf : List Char), suffixFromFirstLB l = some suf → ∃ t, suf = lbraceC :: t := by
  intro l
  induction l with
  | nil => intro suf h; simp [suffixFromFirstLB] at h
  | cons c cs ih =>
      intro suf h
      by_cases hc : c = lbraceC
      · simp [suffixFromFirstLB, hc] at h
        exact ⟨cs, h.symm⟩
      · simp [suffixFromFirstLB, hc] at h
        exact ih suf h

theorem truncAtLastRB_go_suffix :
    ∀ (lr r : List Char), truncAtLastRB.go lr = some r → ∃ pre, lr = pre ++ r := by
  intro lr
  induction lr with
  | nil => intro r h; simp [truncAtLastRB.go] at h
  | cons c cs ih =>
      intro r h
      by_cases hc : c = rbraceC
      · simp [truncAtLastRB.go, hc] at h
        refine ⟨[], ?_⟩
        simp only [List.nil_append]
        rw [hc]
        exact h
      · simp [truncAtLastRB.go, hc] at h
        obtain ⟨pre, hpre⟩ := ih r h
        exact ⟨c :: pre, by simp [hpre]⟩

theorem truncAtLastRB_head (t : List Char) (span : List Char)
    (h : truncAtLastRB (lbraceC :: t) = some span) (hne : span ≠ []) :
    ∃ t2, span = lbraceC :: t2 := by
  unfold truncAtLastRB at h
  cases hgo : truncAtLastRB.go (lbraceC :: t).reverse with
  | none => rw [hgo] at h; simp at h
  | some r =>
      rw [hgo] at h
      simp at h
      obtain ⟨pre, hpre⟩ := truncAtLastRB_go_suffix _ r hgo
      have hthis : lbraceC :: t = span ++ pre.reverse := by
        have h2 := congrArg List.reverse hpre
        simpa [List.reverse_append, h] using h2
      cases span with
      | nil => exact absurd rfl hne
      | cons x xs =>
          rw [List.cons_append] at hthis
          injection hthis with h1 _
          exact ⟨xs, by rw [← h1]⟩

theorem extractJsonSpan_head (s span : String)
    (h : extractJsonSpan s = some span) : ∃ t, span.data = lbraceC :: t := by
  unfold extractJsonSpan at h
  split at h
  · exact absurd h (by simp)
  next suf hsuf =>
    split at h
    · exact absurd h (by simp)
    next sp htr =>
      split at h
      · next hlen =>
          obtain ⟨t0, ht0⟩ := suffixFromFirstLB_head _ _ hsuf
          subst ht0
          have hne : sp ≠ [] := by
            intro hnil
            rw [hnil] at hlen
            simp at hlen
          obtain ⟨t2, ht2⟩ := truncAtLastRB_head _ _ htr hne
          cases h
          exact ⟨t2, ht2⟩
      · exact absurd h (by simp)

theorem parseVal_obj_of_lbrace (fuel : Nat) (t : List Char) (v : Json) (rest : List Char)
    (h : parseVal (fuel + 1) (lbraceC :: t) = some (v, rest)) :
    ∃ kvs, v = Json.obj kvs := by
  have hstep : parseVal (fuel + 1) (lbraceC :: t) =
      (match skipWs t with
       | c1 :: cs1 =>
           if c1 = rbraceC then some (Json.obj [], cs1)
           else (parseVal.parseObjPairs fuel (c1 :: cs1) []).map (fun p => (Json.obj p.1, p.2))
       | [] => none) := rfl
  rw [hstep] at h
  split at h
  next c1 cs1 =>
    split at h
    · cases h
      exact ⟨[], rfl⟩
    · obtain ⟨p, hp, hpe⟩ := Option.map_eq_some'.mp h
      obtain ⟨hv, hr⟩ := Prod.mk.injEq .. ▸ hpe
      exact ⟨p.1, hv.symm⟩
  next => exact absurd h (by simp)

theorem jsonLoads_obj (s span : String) (v : Json)
    (hspan : extractJsonSpan s = some span) (h : jsonLoads span = some v) :
    ∃ kvs, v = Json.obj kvs := by
  obtain ⟨t, ht⟩ := extractJsonSpan_head s span hspan
  unfold jsonLoads at h
  rw [ht] at h
  have hlen : (lbraceC :: t).length * 2 + 16 = ((lbraceC :: t).length * 2 + 15) + 1 := rfl
  rw [hlen] at h
  cases hp : parseVal ((lbraceC :: t).length * 2 + 15 + 1) (lbraceC :: t) with
  | none => rw [hp] at h; simp at h
  | some pr =>
      rw [hp] at h
      obtain ⟨v0, rest⟩ := pr
      obtain ⟨kvs, hkvs⟩ := parseVal_obj_of_lbrace _ _ _ _ hp
      simp at h
      obtain ⟨_, hv⟩ := h
      subst hv
      exact ⟨kvs, hkvs⟩

theorem lookupKey_append (a b : List (String × Json)) (k : String) :
    lookupKey (a ++ b) k =
      (match lookupKey a k with
       | some v => some v
       | none => lookupKey b k) := by
  induction a with
  | nil => simp [lookupKey]
  | cons kv rest ih =>
      obtain ⟨k0, v0⟩ := kv
      by_cases hk : k0 = k <;> simp [lookupKey, hk, ih]

theorem containsKey_setdefault_self (kvs : List (String × Json)) (k : String) (v : Json) :
    containsKey (setdefault kvs k v) k = true := by
  unfold setdefault
  split
  · assumption
  · unfold containsKey
    rw [lookupKey_append]
    cases hl : lookupKey kvs k with
    | some w => simp
    | none => simp [lookupKey]

theorem lookupKey_setdefault_other (kvs : List (String × Json)) (k k' : String) (v : Json)
    (hne : k ≠ k') :
    lookupKey (setdefault kvs k' v) k = lookupKey kvs k := by
  unfold setdefault
  split
  · rfl
  · rw [lookupKey_append]
    cases hl : lookupKey kvs k with
    | some w => rfl
    | none =>
        simp only [lookupKey]
        rw [if_neg (fun hh => hne hh.symm)]

theorem containsKey_setdefault_other (kvs : List (String × Json)) (k k' : String) (v : Json)
    (hne : k ≠ k') :
    containsKey (setdefault kvs k' v) k = containsKey kvs k := by
  unfold containsKey
  rw [lookupKey_setdefault_other _ _ _ _ hne]

theorem containsKey_setdefault_mono (kvs : List (String × Json)) (k k' : String) (v : Json)
    (h : containsKey kvs k = true) :
    containsKey (setdefault kvs k' v) k = true := by
  by_cases hk : k = k'
  · subst hk
    exact containsKey_setdefault_self ..
  · rw [containsKey_setdefault_other _ _ _ _ hk]
    exact h

theorem lookupKey_setdefault_new (kvs : List (String × Json)) (k : String) (v : Json)
    (h : containsKey kvs k = false) :
    lookupKey (setdefault kvs k v) k = some v := by
  unfold setdefault
  rw [h]
  simp only [Bool.false_eq_true, if_false]
  rw [lookupKey_append]
  unfold containsKey at h
  cases hl : lookupKey kvs k with
  | some w => rw [hl] at h; simp at h
  | none => simp [lookupKey]

theorem lookupKey_setdefault_keep (kvs : List (String × Json)) (k k' : String) (v : Json)
    (h : containsKey kvs k = true) :
    lookupKey (setdefault kvs k' v) k = lookupKey kvs k := by
  by_cases hk : k = k'
  · subst hk
    unfold setdefault
    rw [h]
    simp
  · exact lookupKey_setdefault_other _ _ _ _ hk

theorem foldsd_contains_mono (keys : List String) (acc : List (String × Json)) (k : String)
    (h : containsKey acc k = true) :
    containsKey (keys.foldl (fun a kk => setdefault a kk (setdefaultDefault kk)) acc) k = true := by
  induction keys generalizing acc with
  | nil => simpa using h
  | cons k0 rest ih =>
      simp only [List.foldl_cons]
      exact ih _ (containsKey_setdefault_mono _ _ _ _ h)

theorem foldsd_lookup_keep (keys : List String) (acc : List (String × Json)) (k : String)
    (h : containsKey acc k = true) :
    lookupKey (keys.foldl (fun a kk => setdefault a kk (setdefaultDefault kk)) acc) k =
      lookupKey acc k := by
  induction keys generalizing acc with
  | nil => simp
  | cons k0 rest ih =>
      simp only [List.foldl_cons]
      rw [ih _ (containsKey_setdefault_mono _ _ _ _ h)]
      exact lookupKey_setdefault_keep _ _ _ _ h

theorem foldsd_contains_of_mem (keys : List String) (acc : List (String × Json)) (k : String)
    (h : k ∈ keys) :
    containsKey (keys.foldl (fun a kk => setdefault a kk (setdefaultDefault kk)) acc) k = true := by
  induction keys generalizing acc with
  | nil => simp at h
  | cons k0 rest ih =>
      simp only [List.foldl_cons]
      rcases List.mem_cons.mp h with h0 | h0
      · subst h0
        exact foldsd_contains_mono _ _ _ (containsKey_setdefault_self ..)
      · exact ih _ h0

theorem applySetdefaults_keys (kvs : List (String × Json)) :
    ∀ k ∈ requiredKeys, containsKey (applySetdefaults kvs) k = true := by
  intro k hk
  exact foldsd_contains_of_mem _ _ _ hk

theorem foldsd_lookup_skip (keys : List String) (acc : List (String × Json)) (k : String)
    (hne : ∀ k' ∈ keys, k' ≠ k) :
    lookupKey (keys.foldl (fun a kk => setdefault a kk (setdefaultDefault kk)) acc) k =
      lookupKey acc k := by
  induction keys generalizing acc with
  | nil => simp
  | cons k0 rest ih =>
      simp only [List.foldl_cons]
      rw [ih _ (fun k' hk' => hne k' (List.mem_cons_of_mem _ hk'))]
      exact lookupKey_setdefault_other _ _ _ _
        (fun hh => hne k0 (List.mem_cons_self _ _) hh.symm)

theorem applySetdefaults_missing (kvs : List (String × Json)) (k : String)
    (hk : k ∈ requiredKeys) (h : containsKey kvs k = false) :
    lookupKey (applySetdefaults kvs) k = some (setdefaultDefault k) := by
  simp only [requiredKeys, List.mem_cons, List.not_mem_nil, or_false] at hk
  unfold applySetdefaults requiredKeys
  simp only [List.foldl_cons, List.foldl_nil]
  rcases hk with h0 | h0 | h0 | h0 | h0 | h0 <;> subst h0
  · rw [lookupKey_setdefault_keep _ _ _ _ (containsKey_setdefault_mono _ _ _ _
          (containsKey_setdefault_mono _ _ _ _ (containsKey_setdefault_mono _ _ _ _
            (containsKey_setdefault_mono _ _ _ _ (containsKey_setdefault_self ..))))),
        lookupKey_setdefault_keep _ _ _ _ (containsKey_setdefault_mono _ _ _ _
          (containsKey_setdefault_mono _ _ _ _ (containsKey_setdefault_mono _ _ _ _
            (containsKey_setdefault_self ..)))),
        lookupKey_setdefault_keep _ _ _ _ (containsKey_setdefault_mono _ _ _ _
          (containsKey_setdefault_mono _ _ _ _ (containsKey_setdefault_self ..))),
        lookupKey_setdefault_keep _ _ _ _ (containsKey_setdefault_mono _ _ _ _
          (containsKey_setdefault_self ..)),
        lookupKey_setdefault_keep _ _ _ _ (containsKey_setdefault_self ..),
        lookupKey_setdefault_new _ _ _ h]
  · have f1 : containsKey (setdefault kvs "intent" (setdefaultDefault "intent"))
        "ai_overview" = false := by
      rw [containsKey_setdefault_other _ _ _ _ (by decide)]
      exact h
    rw [lookupKey_setdefault_keep _ _ _ _ (containsKey_setdefault_mono _ _ _ _
          (containsKey_setdefault_mono _ _ _ _ (containsKey_setdefault_mono _ _ _ _
            (containsKey_setdefault_self ..)))),
        lookupKey_setdefault_keep _ _ _ _ (containsKey_setdefault_mono _ _ _ _
          (containsKey_setdefault_mono _ _ _ _ (containsKey_setdefault_self ..))),
        lookupKey_setdefault_keep _ _ _ _ (containsKey_setdefault_mono _ _ _ _
          (containsKey_setdefault_self ..)),
        lookupKey_setdefault_keep _ _ _ _ (containsKey_setdefault_self ..),
        lookupKey_setdefault_new _ _ _ f1]
  · have f1 : containsKey (setdefault kvs "intent" (setdefaultDefault "intent"))
        "citations" = false := by
      rw [containsKey_setdefault_other _ _ _ _ (by decide)]
      exact h
    have f2 : containsKey (setdefault (setdefault kvs "intent" (setdefaultDefault "intent"))
        "ai_overview" (setdefaultDefault "ai_overview")) "citations" = false := by
      rw [containsKey_setdefault_other _ _ _ _ (by decide)]
      exact f1
    rw [lookupKey_setdefault_keep _ _ _ _ (containsKey_setdefault_mono _ _ _ _
          (containsKey_setdefault_mono _ _ _ _ (containsKey_setdefault_self ..))),
        lookupKey_setdefault_keep _ _ _ _ (containsKey_setdefault_mono _ _ _ _
          (containsKey_setdefault_self ..)),
        lookupKey_setdefault_keep _ _ _ _ (containsKey_setdefault_self ..),
        lookupKey_setdefault_new _ _ _ f2]
  · have f1 : containsKey (setdefault kvs "intent" (setdefaultDefault "intent"))
        "domain_summary" = false := by
      rw [containsKey_setdefault_other _ _ _ _ (by decide)]
      exact h
    have f2 : containsKey (setdefault (setdefault kvs "intent" (setdefaultDefault "intent"))
        "ai_overview" (setdefaultDefault "ai_overview")) "domain_summary" = false := by
      rw [containsKey_setdefault_other _ _ _ _ (by decide)]
      exact f1
    have f3 : containsKey (setdefault (setdefault (setdefault kvs "intent"
        (setdefaultDefault "intent")) "ai_overview" (setdefaultDefault "ai_overview"))
        "citations" (setdefaultDefault "citations")) "domain_summary" = false := by
      rw [containsKey_setdefault_other _ _ _ _ (by decide)]
      exact f2
    rw [lookupKey_setdefault_keep _ _ _ _ (containsKey_setdefault_mono _ _ _ _
          (containsKey_setdefault_self ..)),
        lookupKey_setdefault_keep _ _ _ _ (containsKey_setdefault_self ..),
        lookupKey_setdefault_new _ _ _ f3]
  · have f1 : containsKey (setdefault kvs "intent" (setdefaultDefault "intent"))
        "top_recommendation" = false := by
      rw [containsKey_setdefault_other _ _ _ _ (by decide)]
      exact h
    have f2 : containsKey (setdefault (setdefault kvs "intent" (setdefaultDefault "intent"))
        "ai_overview" (setdefaultDefault "ai_overview")) "top_recommendation" = false := by
      rw [containsKey_setdefault_other _ _ _ _ (by decide)]
      exact f1
    have f3 : containsKey (setdefault (setdefault (setdefault kvs "intent"
        (setdefaultDefault "intent")) "ai_overview" (setdefaultDefault "ai_overview"))
        "citations" (setdefaultDefault "citations")) "top_recommendation" = false := by
      rw [containsKey_setdefault_other _ _ _ _ (by decide)]
      exact f2
    have f4 : containsKey (setdefault (setdefault (setdefault (setdefault kvs "intent"
        (setdefaultDefault "intent")) "ai_overview" (setdefaultDefault "ai_overview"))
        "citations" (setdefaultDefault "citations")) "domain_summary"
        (setdefaultDefault "domain_summary")) "top_recommendation" = false := by
      rw [containsKey_setdefault_other _ _ _ _ (by decide)]
      exact f3
    rw [lookupKey_setdefault_keep _ _ _ _ (containsKey_setdefault_self ..),
        lookupKey_setdefault_new _ _ _ f4]
  · have f1 : containsKey (setdefault kvs "intent" (setdefaultDefault "intent"))
        "runner_ups" = false := by
      rw [containsKey_setdefault_other _ _ _ _ (by decide)]
      exact h
    have f2 : containsKey (setdefault (setdefault kvs "intent" (setdefaultDefault "intent"))
        "ai_overview" (setdefaultDefault "ai_overview")) "runner_ups" = false := by
      rw [containsKey_setdefault_other _ _ _ _ (by decide)]
      exact f1
    have f3 : containsKey (setdefault (setdefault (setdefault kvs "intent"
        (setdefaultDefault "intent")) "ai_overview" (setdefaultDefault "ai_overview"))
        "citations" (setdefaultDefault "citations")) "runner_ups" = false := by
      rw [containsKey_setdefault_other _ _ _ _ (by decide)]
      exact f2
    have f4 : containsKey (setdefault (setdefault (setdefault (setdefault kvs "intent"
        (setdefaultDefault "intent")) "ai_overview" (setdefaultDefault "ai_overview"))
        "citations" (setdefaultDefault "citations")) "domain_summary"
        (setdefaultDefault "domain_summary")) "runner_ups" = false := by
      rw [containsKey_setdefault_other _ _ _ _ (by decide)]
      exact f3
    have f5 : containsKey (setdefault (setdefault (setdefault (setdefault (setdefault kvs
        "intent" (setdefaultDefault "intent")) "ai_overview"
        (setdefaultDefault "ai_overview")) "citations" (setdefaultDefault "citations"))
        "domain_summary" (setdefaultDefault "domain_summary")) "top_recommendation"
        (setdefaultDefault "top_recommendation")) "runner_ups" = false := by
      rw [containsKey_setdefault_other _ _ _ _ (by decide)]
      exact f4
    rw [lookupKey_setdefault_new _ _ _ f5]

/-- C2 (amended): for every *string* input the parser never raises: the
result always carries every required top-level key; the empty string and any
string without a JSON span yield the no-JSON fallback object; a span that
fails `json.loads` yields the parse-failed fallback object; both fallback
objects have the claimed shape (intent informational with confidence 0.5,
empty overview text, empty arrays, null top recommendation); and any
required key missing from a successfully parsed object is defaulted to
exactly that value by `setdefault`.  (Null input is excluded: see the
counterexample.) -/
theorem parser_fallback_law :
    (∀ s : String, ∃ d, parse_gemini_response (some s) = .ok d ∧
        (requiredKeys.all fun k => hasKey d k) = true) ∧
    parse_gemini_response (some "") = .ok fallbackNoJson ∧
    (∀ s : String, extractJsonSpan s = none →
        parse_gemini_response (some s) = .ok fallbackNoJson) ∧
    (∀ (s span : String), extractJsonSpan s = some span → jsonLoads span = none →
        parse_gemini_response (some s) = .ok fallbackParseFailed) ∧
    fallbackShapeOk fallbackNoJson = true ∧
    fallbackShapeOk fallbackParseFailed = true ∧
    (∀ (kvs : List (String × Json)) (k : String), k ∈ requiredKeys →
        containsKey kvs k = false →
        lookupKey (applySetdefaults kvs) k = some (setdefaultDefault k)) := by
  refine ⟨?_, rfl, ?_, ?_, ?_, ?_, applySetdefaults_missing⟩
  · intro s
    cases hspan : extractJsonSpan s with
    | none =>
        refine ⟨fallbackNoJson, by simp [parse_gemini_response, hspan], by decide⟩
    | some span =>
        cases hload : jsonLoads span with
        | none =>
            refine ⟨fallbackParseFailed, by simp [parse_gemini_response, hspan, hload], by decide⟩
        | some v =>
            obtain ⟨kvs, hkvs⟩ := jsonLoads_obj s span v hspan hload
            subst hkvs
            refine ⟨Json.obj (applySetdefaults kvs), ?_, ?_⟩
            · simp [parse_gemini_response, hspan, hload]
            · rw [List.all_eq_true]
              intro k hk
              simpa [hasKey] using applySetdefaults_keys kvs k hk
  · intro s hs
    simp [parse_gemini_response, hs]
  · intro s span hs hl
    simp [parse_gemini_response, hs, hl]
  · simp [fallbackShapeOk, fallbackNoJson, defaultIntent, lookupKey, beqJson,
      beqJson.beqKvs, beqJson.beqList]
  · simp [fallbackShapeOk, fallbackParseFailed, defaultIntent, lookupKey, beqJson,
      beqJson.beqKvs, beqJson.beqList]

/-- C2 (counterexample): on `None` input the parser raises `TypeError`
inside `re.search` instead of returning the fallback object. -/
theorem parser_raises_on_none_counterexample :
    parse_gemini_response none = .error "TypeError: expected string or bytes-like object" := rfl

/-- Witness for C2 at concrete inputs. -/
theorem parser_fallback_law_witness :
    parse_gemini_response (some "no braces here") = .ok fallbackNoJson ∧
    parse_gemini_response (some "x\x7boops\x7dy") = .ok fallbackParseFailed ∧
    lookupKey (applySetdefaults []) "intent" = some (setdefaultDefault "intent") :=
  ⟨parser_fallback_law.2.2.1 "no braces here" rfl,
   parser_fallback_law.2.2.2.1 "x\x7boops\x7dy" "\x7boops\x7d" rfl rfl,
   parser_fallback_law.2.2.2.2.2.2 [] "intent" (by decide) rfl⟩
